import Mathlib

/-!
Verification development for the fudano WebRTC data-channel stack
(a trimmed fork of werift): a shallow embedding in Lean 4 of the parts of
the TypeScript source that the specification's claims are about, together
with theorems settling those claims.

Conventions used throughout the embedding:
* JavaScript strings are modelled as `List Char` (`Str`).
* JavaScript `number` values are modelled as `Nat` (or `Int` where a value
  can genuinely go negative, and `ℚ` for fractional unix timestamps);
  `undefined`-able values are modelled as `Option`.
* A JavaScript `Set` of numbers is modelled as a duplicate-free `List Nat`
  kept in insertion order, which is the iteration order of a JS `Set`.
* `Array.prototype.sort()` called without a comparator sorts by UTF-16
  string comparison of the decimal renderings; `jsSortNats` models this.
* Methods that mutate `this` become functions `State → ... → State`;
  data handed to `transport.send` and to the `onReceive` callback is
  collected in explicit output lists.  A thrown exception is modelled by
  an `Option`/paired-error result (`none` = the method threw).
-/

set_option maxRecDepth 100000

namespace Fudano

/-! ## JavaScript string and number primitives -/

/-- JavaScript strings, modelled as lists of characters. -/
abbrev Str := List Char

/-- Shorthand turning a Lean string literal into the `Str` model. -/
def str (s : String) : Str := s.data

/-- The decimal digit character for one digit value (values ≥ 9 give '9';
only used with arguments below 10). -/
def digitChar (n : Nat) : Char :=
  match n with
  | 0 => '0' | 1 => '1' | 2 => '2' | 3 => '3' | 4 => '4'
  | 5 => '5' | 6 => '6' | 7 => '7' | 8 => '8' | _ => '9'

/-- Fuel-driven core of `natRepr`; the fuel only bounds recursion depth. -/
def natReprGo : Nat → Nat → List Char → List Char
  | 0, _, acc => acc
  | fuel + 1, n, acc =>
    let acc := digitChar (n % 10) :: acc
    if n < 10 then acc else natReprGo fuel (n / 10) acc

/-- Decimal rendering of a natural number, the model of JavaScript's
`String(n)` / `n.toString()` for a nonnegative integer. -/
def natRepr (n : Nat) : Str := natReprGo (n + 1) n []

/-- Decidable test for a decimal digit character. -/
def isDigitChar (c : Char) : Bool := 48 ≤ c.toNat && c.toNat ≤ 57

/-- Numeric value of a digit string (big-endian decimal fold). -/
def natOfDigits (l : Str) : Nat := l.foldl (fun a c => a * 10 + (c.toNat - 48)) 0

/-- Model of JavaScript `parseInt(s, 10)` restricted to the strings this
code base feeds it: the longest digit prefix is converted, and `none`
models the `NaN` result when no leading digit exists. -/
def parseIntE (s : Str) : Option Nat :=
  let ds := s.takeWhile isDigitChar
  if ds.isEmpty then none else some (natOfDigits ds)

/-- UTF-16 code-unit comparison of two strings, the ordering JavaScript's
`<`/`>` relational operators use on strings (all characters appearing in
this development are in the BMP, where the code unit is `Char.toNat`). -/
def lexLe : Str → Str → Bool
  | [], _ => true
  | _ :: _, [] => false
  | c :: cs, d :: ds =>
    if c.toNat < d.toNat then true
    else if c.toNat = d.toNat then lexLe cs ds else false

/-- Stable insertion of a number into a list sorted by decimal-string
order. -/
def insertSorted (x : Nat) : List Nat → List Nat
  | [] => [x]
  | y :: ys => if lexLe (natRepr x) (natRepr y) then x :: y :: ys else y :: insertSorted x ys

/-- Model of `[...numberSet].sort()` in JavaScript: `sort` without a
comparator compares the *decimal string renderings* of the numbers, not
their numeric values (so for example `[9, 10].sort()` is `[10, 9]`). -/
def jsSortNats (l : List Nat) : List Nat := l.foldr insertSorted []

/-- Model of adding an element to a JS `Set` (kept in insertion order). -/
def setAdd (l : List Nat) (x : Nat) : List Nat := if l.contains x then l else l ++ [x]

/-- Prepend a character to the first piece of a split result. -/
def consHead (c : Char) : List Str → List Str
  | [] => [[c]]
  | l :: ls => (c :: l) :: ls

/-- Model of JavaScript `s.split(sep)` for a one-character separator:
split at every occurrence, keeping empty pieces (the result is never
empty). -/
def splitOn1 (sep : Char) : Str → List Str
  | [] => [[]]
  | c :: rest => if c = sep then [] :: splitOn1 sep rest else consHead c (splitOn1 sep rest)

/-- Model of JavaScript `s.split('\r\n')`: split at every non-overlapping
CRLF occurrence, scanning left to right. -/
def splitCRLF : Str → List Str
  | [] => [[]]
  | [c] => [[c]]
  | c :: d :: rest =>
    if c = '\r' ∧ d = '\n' then [] :: splitCRLF rest
    else consHead c (splitCRLF (d :: rest))

/-- The CRLF line separator. -/
def crlf : Str := ['\r', '\n']

namespace Sctp

/-! ## SCTP association (src/sctp/sctp.ts)

The embedding follows `src/src/sctp/sctp.ts`.  Chunk (de)serialization
lives in `src/sctp/chunk.ts`, which is not part of the provided sources;
packets are therefore modelled at the parsed level: a packet is the
`(sourcePort, destinationPort, verificationTag, chunk)` tuple that
`parsePacket` returns and `serializePacket` consumes.  The `Chunk`
inductive covers the chunk types the claims concern (DATA, SACK,
HEARTBEAT(-ACK), ABORT, ERROR, COOKIE_ECHO, COOKIE_ACK); INIT, INIT_ACK,
SHUTDOWN-family, RECONFIG and FORWARD-TSN traffic is outside the scope of
the theorems below. -/

/-- Association states, from `src/sctp/const.ts` (values named in the
source and the spec). -/
inductive SCTP_STATE
  | CLOSED
  | COOKIE_WAIT
  | COOKIE_ECHOED
  | ESTABLISHED
  | SHUTDOWN_SENT
  | SHUTDOWN_RECEIVED
  | SHUTDOWN_ACK_SENT
  deriving DecidableEq

/-- The `SCTPConnectionState` union type of sctp.ts. -/
inductive ConnState
  | new
  | closed
  | connected
  | connecting
  deriving DecidableEq

/-- Fields of a DATA chunk (the subset of chunk.ts's `DataChunk` that the
send/receive paths read; `sentCount`/`sentTime` bookkeeping is not
modelled). -/
structure DataChunkFields where
  flags : Nat
  tsn : Nat
  streamId : Nat
  streamSeqNum : Nat
  protocol : Nat
  userData : List Nat
  deriving DecidableEq

/-- Parsed SCTP chunks (the chunk types the claims concern). -/
inductive Chunk
  | data (d : DataChunkFields)
  | sack (cumulativeTsn : Nat) (advertisedRwnd : Int) (gaps : List (Int × Int))
      (duplicates : List Nat)
  | heartbeat (params : List (Nat × List Nat))
  | heartbeatAck (params : List (Nat × List Nat))
  | abort
  | error (params : List (Nat × List Nat))
  | cookieEcho (body : List Nat)
  | cookieAck
  deriving DecidableEq

/-- A parsed SCTP packet: what `serializePacket(localPort, remotePort,
remoteVerificationTag, chunk)` receives and `parsePacket` produces. -/
structure Packet where
  sourcePort : Nat
  destinationPort : Nat
  verificationTag : Nat
  chunk : Chunk
  deriving DecidableEq

/-- Cause code of the `StaleCookieError` operational-error cause
(`ErrorChunk.CODE.StaleCookieError` in chunk.ts, RFC 4960 cause 3). -/
def staleCookieErrorCode : Nat := 3

/-- USERDATA_MAX_LENGTH constant from sctp.ts. -/
def USERDATA_MAX_LENGTH : Nat := 1200

/-- COOKIE_LENGTH constant from sctp.ts. -/
def COOKIE_LENGTH : Nat := 24

/-- COOKIE_LIFETIME constant from sctp.ts (seconds). -/
def COOKIE_LIFETIME : Nat := 60

/-- SCTP_DATA_LAST_FRAG flag bit. -/
def SCTP_DATA_LAST_FRAG : Nat := 0x01

/-- SCTP_DATA_FIRST_FRAG flag bit. -/
def SCTP_DATA_FIRST_FRAG : Nat := 0x02

/-- SCTP_DATA_UNORDERED flag bit. -/
def SCTP_DATA_UNORDERED : Nat := 0x04

/-- SCTP_TSN_MODULO constant from sctp.ts. -/
def SCTP_TSN_MODULO : Nat := 2 ^ 32

/-- Modelled from the spec: `uint32Gt` from `src/common/number.ts` (the
file is not under the provided sources; only its callers are).  The spec
states the modulo-32 comparison as `a > b iff (a − b) mod 2³² < 2³¹`,
strict as the separately used `uint32Gte` implies; a comparison with an
`undefined` operand is `false` (NaN comparison semantics). -/
def uint32Gt : Option Nat → Option Nat → Bool
  | some a, some b => a != b && (a + 2 ^ 32 - b) % 2 ^ 32 < 2 ^ 31
  | _, _ => false

/-- Modelled from the spec: `uint32Gte` from `src/common/number.ts`,
the reflexive closure of `uint32Gt`. -/
def uint32Gte (a b : Option Nat) : Bool := a == b || uint32Gt a b

/-- Modelled from the spec: `uint16Add` from `src/common/number.ts`; the
per-stream sequence counter "wraps at 2¹⁶". -/
def uint16Add (a b : Nat) : Nat := (a + b) % 2 ^ 16

/-- The `tsnPlusOne` helper of sctp.ts: `(a + 1) % SCTP_TSN_MODULO`. -/
def tsnPlusOne (a : Nat) : Nat := (a + 1) % SCTP_TSN_MODULO

/-- Mutable state of the `SCTP` class (the fields the modelled methods
read or write; rtt/reconfiguration-payload bookkeeping and the events are
not modelled, timer handles are modelled as armed/idle flags). -/
structure SctpState where
  associationState : SCTP_STATE := .CLOSED
  connState : ConnState := .new
  isServer : Bool := true
  localPort : Nat := 5000
  localVerificationTag : Nat := 0
  remotePort : Option Nat := none
  remoteVerificationTag : Nat := 0
  advertisedRwnd : Int := 16 * 256 * 1200
  lastReceivedTsn : Option Nat := none
  sackDuplicates : List Nat := []
  sackMisOrdered : List Nat := []
  sackNeeded : Bool := false
  flightSize : Int := 0
  outboundStreamSeq : List (Nat × Nat) := []
  localTsn : Nat := 0
  timer1Handle : Bool := false
  timer1Chunk : Option Chunk := none
  timer2Handle : Bool := false
  timer2Chunk : Option Chunk := none
  timerReconfigHandle : Bool := false
  deriving DecidableEq

/-- Lookup in the `outboundStreamSeq` number-keyed object. -/
def lookupSeq (m : List (Nat × Nat)) (k : Nat) : Option Nat :=
  (m.find? (fun p => p.1 == k)).map (fun p => p.2)

/-- Assignment `m[k] = v` on the `outboundStreamSeq` object. -/
def setSeq (m : List (Nat × Nat)) (k v : Nat) : List (Nat × Nat) :=
  if (m.find? (fun p => p.1 == k)).isSome then
    m.map (fun p => if p.1 == k then (k, v) else p)
  else m ++ [(k, v)]

/-- Data flowing out of a method: packets handed to `transport.send` and
`(streamId, ppId, data)` triples delivered through `onReceive`. -/
structure Out where
  packets : List Packet := []
  deliveries : List (Nat × Nat × List Nat) := []
  deriving DecidableEq

/-- The `timer1Cancel` method. -/
def timer1Cancel (st : SctpState) : SctpState :=
  if st.timer1Handle then { st with timer1Handle := false, timer1Chunk := none } else st

/-- The `timer2Cancel` method. -/
def timer2Cancel (st : SctpState) : SctpState :=
  if st.timer2Handle then { st with timer2Handle := false, timer2Chunk := none } else st

/-- The `setConnectionState` method (events are not modelled). -/
def setConnectionState (st : SctpState) (s : ConnState) : SctpState :=
  { st with connState := s }

/-- The `setState` method: records the association state and, for
`ESTABLISHED`/`CLOSED`, updates the connection state (for `CLOSED` it also
cancels timers 1 and 2 and unsubscribes listeners — listener lists are not
modelled). -/
def setState (st : SctpState) (s : SCTP_STATE) : SctpState :=
  let st := { st with associationState := s }
  if s = .ESTABLISHED then setConnectionState st .connected
  else if s = .CLOSED then
    setConnectionState (timer2Cancel (timer1Cancel st)) .closed
  else st

/-- The `sendChunk` method: a no-op when the connection state is
`'closed'`, a thrown error (`none`) when `remotePort` is unset, otherwise
one serialized packet handed to `transport.send`. -/
def sendChunk (st : SctpState) (c : Chunk) : Option (List Packet) :=
  if st.connState = .closed then some []
  else
    match st.remotePort with
    | none => none
    | some rp => some [⟨st.localPort, rp, st.remoteVerificationTag, c⟩]

/-- The cumulative-TSN walk in `markReceived` / `receiveForwardTsnChunk`:
over the (string-!)sorted mis-ordered list, the last-received TSN advances
while the next element is exactly `tsnPlusOne` of it.  A `none` (still
undefined) last-received TSN never advances, since in JS
`tsn === tsnPlusOne(undefined)` is a NaN comparison. -/
def advanceLrt : List Nat → Option Nat → Option Nat
  | [], lrt => lrt
  | t :: rest, lrt =>
    if some t == lrt.map tsnPlusOne then advanceLrt rest (some t) else lrt

/-- The `markReceived` method (the returned duplicate flag is dropped by
its only caller and not modelled). -/
def markReceived (st : SctpState) (tsn : Nat) : SctpState :=
  if uint32Gte st.lastReceivedTsn (some tsn) || st.sackMisOrdered.contains tsn then
    { st with sackDuplicates := st.sackDuplicates ++ [tsn] }
  else
    let mis := setAdd st.sackMisOrdered tsn
    let lrt := advanceLrt (jsSortNats mis) st.lastReceivedTsn
    let isObsolete := fun x => uint32Gt (some x) lrt
    { st with
      lastReceivedTsn := lrt
      sackDuplicates := (st.sackDuplicates).filter isObsolete
      sackMisOrdered := mis.filter isObsolete }

/-- The `receiveDataChunk` method: request a SACK, mark the TSN received,
and deliver `(streamId, protocol, userData)` upward unconditionally. -/
def receiveDataChunk (st : SctpState) (d : DataChunkFields) :
    SctpState × (Nat × Nat × List Nat) :=
  let st := { st with sackNeeded := true }
  let st := markReceived st d.tsn
  (st, (d.streamId, d.protocol, d.userData))

/-- Gap-list computation in `sendSack`: positions are `(tsn − lastReceivedTsn)
% 2³²` with JavaScript's truncating `%` (hence `Int.tmod`), walked over the
string-sorted mis-ordered list; a run extends the last gap's upper bound. -/
def sackGapsStep (lrt : Int) (acc : List (Int × Int) × Option Nat) (tsn : Nat) :
    List (Int × Int) × Option Nat :=
  let pos := (Int.ofNat tsn - lrt).tmod (2 ^ 32)
  let gaps :=
    if some tsn == acc.2 then
      (acc.1.dropLast) ++ (acc.1.getLast?.map (fun g => (g.1, pos))).toList
    else acc.1 ++ [(pos, pos)]
  (gaps, some (tsnPlusOne tsn))

/-- The `sendSack` method; `none` models the non-null assertion on a still
undefined `lastReceivedTsn` / a throwing `sendChunk`. -/
def sendSack (st : SctpState) : Option (SctpState × List Packet) :=
  match st.lastReceivedTsn with
  | none => none
  | some lrt =>
    let gaps := ((jsSortNats st.sackMisOrdered).foldl (sackGapsStep lrt) ([], none)).1
    let sackChunk : Chunk :=
      .sack lrt (max 0 st.advertisedRwnd) gaps st.sackDuplicates
    match sendChunk st sackChunk with
    | none => none
    | some pkts => some ({ st with sackDuplicates := [], sackNeeded := false }, pkts)

/-- Big-endian 32-bit read of the first four bytes, the model of
`jspack.Unpack('!L', cookie)[0]`. -/
def unpackU32BE (l : List Nat) : Nat :=
  match l with
  | b0 :: b1 :: b2 :: b3 :: _ => ((b0 * 256 + b1) * 256 + b2) * 256 + b3
  | _ => 0

/-- The `CookieEchoChunk` case of `receiveChunk`.  `hmac` abstracts
`createHmac('sha1', this.hmacKey).update(·).digest()` (a fixed function of
the per-association key), `now` is `Date.now() / 1000` (fractional
seconds).  An invalid length or digest drops the chunk silently; an
out-of-window timestamp answers with an ERROR chunk carrying a
`StaleCookieError` cause; otherwise a COOKIE_ACK is sent and the
association becomes ESTABLISHED. -/
def receiveCookieEcho (hmac : List Nat → List Nat) (now : ℚ) (st : SctpState)
    (body : List Nat) : Option (SctpState × Out) :=
  if !st.isServer then some (st, {})
  else
    let digest := hmac (body.take 4)
    if body.length ≠ COOKIE_LENGTH ∨ body.drop 4 ≠ digest then some (st, {})
    else
      let stamp := unpackU32BE body
      if (stamp : ℚ) < now - (COOKIE_LIFETIME : ℚ) ∨ (stamp : ℚ) > now then
        match sendChunk st (.error [(staleCookieErrorCode, List.replicate 8 0)]) with
        | none => none
        | some pkts => some (st, { packets := pkts })
      else
        match sendChunk st .cookieAck with
        | none => none
        | some pkts => some (setState st .ESTABLISHED, { packets := pkts })

/-- The `receiveChunk` dispatch for the modelled chunk types: DATA is
handed to `receiveDataChunk`, a received SACK chunk falls into the
"don't care" case, HEARTBEAT is answered with a HEARTBEAT_ACK, ABORT
closes the association, ERROR is only logged, COOKIE_ECHO runs the cookie
validation and COOKIE_ACK completes the client handshake. -/
def receiveChunk (hmac : List Nat → List Nat) (now : ℚ) (st : SctpState) (c : Chunk) :
    Option (SctpState × Out) :=
  match c with
  | .data d =>
    let (st, delivery) := receiveDataChunk st d
    some (st, { deliveries := [delivery] })
  | .sack _ _ _ _ => some (st, {})
  | .heartbeat params =>
    match sendChunk st (.heartbeatAck params) with
    | none => none
    | some pkts => some (st, { packets := pkts })
  | .heartbeatAck _ => some (st, {})
  | .abort => some (setState st .CLOSED, {})
  | .error _ => some (st, {})
  | .cookieEcho body => receiveCookieEcho hmac now st body
  | .cookieAck =>
    if st.associationState = .COOKIE_ECHOED then
      some (setState (timer1Cancel st) .ESTABLISHED, {})
    else some (st, {})

/-- The `handleData` method on an already parsed packet: the verification
tag must equal the local tag (only INIT packets, which are not among the
modelled chunk types, expect tag 0), the chunk is dispatched, and a
pending SACK request is flushed through `sendSack`. -/
def handleData (hmac : List Nat → List Nat) (now : ℚ) (st : SctpState)
    (verificationTag : Nat) (c : Chunk) : Option (SctpState × Out) :=
  let expectedTag := st.localVerificationTag
  if verificationTag ≠ expectedTag then some (st, {})
  else
    match receiveChunk hmac now st c with
    | none => none
    | some (st, out) =>
      if st.sackNeeded then
        match sendSack st with
        | none => none
        | some (st, pkts) => some (st, { out with packets := out.packets ++ pkts })
      else some (st, out)

/-- Option record of the `send` method (`{expiry, maxRetransmits,
ordered}`, with `ordered` defaulting to `true`). -/
structure SendOptions where
  expiry : Option Nat := none
  maxRetransmits : Option Nat := none
  ordered : Bool := true
  deriving DecidableEq

/-- The `send` method: build a single DATA chunk carrying the whole
payload (both fragment flags set, `UNORDERED` for unordered sends), stamp
it with the current local TSN, advance the local TSN modulo 2³² and the
per-stream sequence counter modulo 2¹⁶ (ordered sends only), and transmit
it (`transmit` adds the payload length to `flightSize` and hands the chunk
to `sendChunk`).  The source performs no payload-size check. -/
def send (st : SctpState) (streamId ppId : Nat) (userData : List Nat)
    (opts : SendOptions) : Option (SctpState × List Packet) :=
  let streamSeqNum := if opts.ordered then (lookupSeq st.outboundStreamSeq streamId).getD 0 else 0
  let flags0 : Nat := if opts.ordered then 0 else SCTP_DATA_UNORDERED
  let flags := (flags0 ||| SCTP_DATA_FIRST_FRAG) ||| SCTP_DATA_LAST_FRAG
  let chunk : Chunk := .data ⟨flags, st.localTsn, streamId, streamSeqNum, ppId, userData⟩
  let st := { st with localTsn := tsnPlusOne st.localTsn }
  let st :=
    if opts.ordered then
      { st with outboundStreamSeq := setSeq st.outboundStreamSeq streamId (uint16Add streamSeqNum 1) }
    else st
  let st := { st with flightSize := st.flightSize + userData.length }
  (sendChunk st chunk).map (fun pkts => (st, pkts))

/-- The `stop` method: abort a non-closed association, force the state to
`CLOSED` (cancelling timers 1 and 2) and clear the timer handles.  `none`
models `abort` throwing out of `sendChunk` before any state was touched. -/
def stop (st : SctpState) : Option (SctpState × List Packet) :=
  let finish := fun (st : SctpState) (pkts : List Packet) =>
    let st := setState st .CLOSED
    some ({ st with timer1Handle := false, timer2Handle := false }, pkts)
  if st.associationState ≠ .CLOSED then
    match sendChunk st .abort with
    | none => none
    | some pkts => finish st pkts
  else finish st []

end Sctp

namespace Sdp

/-! ## Session descriptions (src/sdp.ts)

The data model of `SessionDescription` / `MediaDescription` and their
satellite classes.  Fields typed `string | undefined` in the source are
`Option Str` (`JStr`); JavaScript template interpolation renders an
`undefined` as the text `undefined`, and truthiness of a string is
non-emptiness. -/

/-- A `string | undefined` JavaScript value. -/
abbrev JStr := Option Str

/-- Truthiness of a `string | undefined` value. -/
def jsStrTruthy : JStr → Bool
  | none => false
  | some s => !s.isEmpty

/-- Template interpolation of a `string | undefined` value. -/
def jsShow : JStr → Str
  | none => str "undefined"
  | some s => s

/-- Truthiness of a `number | undefined` value (`undefined` and `0` are
falsy; a `NaN`, which is also falsy, is conflated with `undefined` here). -/
def jsNumTruthy : Option Nat → Bool
  | none => false
  | some n => n != 0

/-- The `RTCDtlsFingerprint` class (transport/dtls.ts, modelled from its
use sites: a plain pair of algorithm name and colon-hex digest). -/
structure RTCDtlsFingerprint where
  algorithm : JStr
  value : JStr
  deriving DecidableEq

/-- The `RTCDtlsParameters` class (transport/dtls.ts, modelled from its
use sites: a fingerprint list plus a `'auto' | 'client' | 'server'` role
that parsing can leave `undefined`). -/
structure RTCDtlsParameters where
  fingerprints : List RTCDtlsFingerprint := []
  role : JStr := none
  deriving DecidableEq

/-- The `RTCIceParameters` class (transport/ice.ts, modelled from its use
sites). -/
structure RTCIceParameters where
  iceLite : Bool := false
  usernameFragment : JStr := none
  password : JStr := none
  deriving DecidableEq

/-- The `RTCSctpCapabilities` class of sctp.ts. -/
structure RTCSctpCapabilities where
  maxMessageSize : Option Nat
  deriving DecidableEq

/-- The `IceCandidate` class (transport/ice.ts, modelled from
`candidateFromSdp` / `candidateToSdp`: constructor argument order is
`(component, foundation, ip, port, priority, protocol, type)` with
optional related address/port and TCP type). -/
structure IceCandidate where
  component : Option Nat
  foundation : JStr
  ip : JStr
  port : Option Nat
  priority : Option Nat
  protocol : JStr
  typ : JStr
  relatedAddress : JStr := none
  relatedPort : Option Nat := none
  tcpType : JStr := none
  deriving DecidableEq

/-- The `GroupDescription` class of sdp.ts. -/
structure GroupDescription where
  semantic : Str
  items : List Str
  deriving DecidableEq

/-- The `MediaDescription` class of sdp.ts (of the `rtp` parameter record
only the `muxId` field is ever read or written in this profile). -/
structure MediaDescription where
  kind : Str
  port : Option Nat
  profile : Str
  fmt : List Str
  host : JStr := none
  rtpMuxId : JStr := none
  sctpCapabilities : Option RTCSctpCapabilities := none
  sctpMap : List (Nat × Str) := []
  sctpPort : Option Nat := none
  dtlsParams : Option RTCDtlsParameters := none
  iceParams : Option RTCIceParameters := none
  iceCandidates : List IceCandidate := []
  iceCandidatesComplete : Bool := false
  iceOptions : JStr := none
  deriving DecidableEq

/-- The `'offer' | 'answer'` union used by the peer-connection API. -/
inductive SdpType
  | offer
  | answer
  deriving DecidableEq

/-- The `SessionDescription` class of sdp.ts.  The `type` and `dtlsRole`
definite-assignment fields start out `undefined`. -/
structure SessionDescription where
  version : Option Nat := some 0
  origin : JStr := none
  name : Str := str "-"
  time : Str := str "0 0"
  host : JStr := none
  group : List GroupDescription := []
  extMapAllowMixed : Bool := true
  msidSemantic : List GroupDescription := []
  media : List MediaDescription := []
  type : Option SdpType := none
  dtlsRole : JStr := none
  iceOptions : JStr := none
  iceLite : Bool := false
  icePassword : JStr := none
  iceUsernameFragment : JStr := none
  dtlsFingerprints : List RTCDtlsFingerprint := []
  deriving DecidableEq

/-- Template interpolation of a `number | undefined` value.  The
`undefined` case of a JS number renders as `undefined` and a `NaN` as
`NaN`; this model conflates the two (rendering `NaN`), which no emitted
description ever exercises. -/
def jsNumShow : Option Nat → Str
  | some n => natRepr n
  | none => str "NaN"

/-- Modelled from the spec: the `divide` helper of helper.ts (not among
the provided sources): split at the first occurrence of the
(single-character) separator, the second component being the rest joined
back together, or empty when the separator is absent. -/
def divideChar (c : Char) (s : Str) : Str × Str :=
  (s.takeWhile (fun x => x ≠ c), (s.dropWhile (fun x => x ≠ c)).drop 1)

/-- The `parseAttr` helper of sdp.ts: for a line containing a colon,
divide `line.slice(2)` at the first colon into attribute and value;
otherwise the whole `line.slice(2)` is the attribute and the value is
`undefined`. -/
def parseAttr (line : Str) : Str × Option Str :=
  if line.contains ':' then
    let bits := divideChar ':' (line.drop 2)
    (bits.1, some bits.2)
  else (line.drop 2, none)

/-- Modelled from the spec: the `DTLS_ROLE_SETUP` table of const.ts (not
among the provided sources): `auto ↦ actpass`, `client ↦ active`,
`server ↦ passive`; any other (or `undefined`) index yields `undefined`. -/
def dtlsRoleSetup : JStr → JStr
  | some r =>
    if r = str "auto" then some (str "actpass")
    else if r = str "client" then some (str "active")
    else if r = str "server" then some (str "passive")
    else none
  | none => none

/-- Modelled from the spec: the `DTLS_SETUP_ROLE` table of const.ts, the
inverse direction: `actpass ↦ auto`, `active ↦ client`,
`passive ↦ server`. -/
def dtlsSetupRole : JStr → JStr
  | some v =>
    if v = str "actpass" then some (str "auto")
    else if v = str "active" then some (str "client")
    else if v = str "passive" then some (str "server")
    else none
  | none => none

/-- Model of Node's `net.isIPv4` on the addresses this code serializes: a
dotted quad of nonempty decimal groups each below 256.  The round-trip
theorems do not depend on this function's value (both branches of
`ipAddressToSdp` re-serialize identically), so finer points of Node's
grammar are immaterial here. -/
def isIPv4E (s : Str) : Bool :=
  let parts := splitOn1 '.' s
  parts.length = 4 &&
    parts.all (fun p => !p.isEmpty && p.all isDigitChar && natOfDigits p < 256)

/-- The `ipAddressToSdp` helper of sdp.ts. -/
def ipAddressToSdp (addr : Str) : Str :=
  str "IN IP" ++ (if isIPv4E addr then str "4" else str "6") ++ ' ' :: addr

/-- The `ipAddressFromSdp` helper of sdp.ts: match
`^IN (IP4|IP6) ([^ ]+)$` and return the address capture; `none` models the
thrown exception on a mismatch. -/
def ipAddressFromSdp (s : Str) : Option Str :=
  if (str "IN IP4 ").isPrefixOf s then
    let a := s.drop 7
    if a.isEmpty ∨ a.contains ' ' then none else some a
  else if (str "IN IP6 ").isPrefixOf s then
    let a := s.drop 7
    if a.isEmpty ∨ a.contains ' ' then none else some a
  else none

/-- The `candidateToSdp` function of sdp.ts. -/
def candidateToSdp (c : IceCandidate) : Str :=
  jsShow c.foundation ++ ' ' :: jsNumShow c.component ++ ' ' :: jsShow c.protocol
    ++ ' ' :: jsNumShow c.priority ++ ' ' :: jsShow c.ip ++ ' ' :: jsNumShow c.port
    ++ str " typ " ++ jsShow c.typ
    ++ (if jsStrTruthy c.relatedAddress then str " raddr " ++ jsShow c.relatedAddress else [])
    ++ (if jsNumTruthy c.relatedPort then str " rport " ++ jsNumShow c.relatedPort else [])
    ++ (if jsStrTruthy c.tcpType then str " tcptype " ++ jsShow c.tcpType else [])

/-- The `range(8, bits.length - 1, 2)` option-pair loop of
`candidateFromSdp`: `count` iterations starting at index `i`, stepping by
2; `raddr`, `rport` and `tcptype` markers assign the following token. -/
def candidateOptsLoop (bits : List Str) : IceCandidate → Nat → Nat → IceCandidate
  | cand, 0, _ => cand
  | cand, count + 1, i =>
    let cand :=
      if bits.getD i [] = str "raddr" then
        { cand with relatedAddress := some (bits.getD (i + 1) []) }
      else if bits.getD i [] = str "rport" then
        { cand with relatedPort := parseIntE (bits.getD (i + 1) []) }
      else if bits.getD i [] = str "tcptype" then
        { cand with tcpType := some (bits.getD (i + 1) []) }
      else cand
    candidateOptsLoop bits cand count (i + 2)

/-- The `candidateFromSdp` function of sdp.ts; `none` models the throw on
fewer than 8 space-separated tokens.  `range(8, bits.length - 1, 2)` has
`(bits.length - 8) / 2` elements. -/
def candidateFromSdp (sdp : Str) : Option IceCandidate :=
  let bits := splitOn1 ' ' sdp
  if bits.length < 8 then none
  else
    let cand : IceCandidate :=
      { component := parseIntE (bits.getD 1 []),
        foundation := some (bits.getD 0 []),
        ip := some (bits.getD 4 []),
        port := parseIntE (bits.getD 5 []),
        priority := parseIntE (bits.getD 3 []),
        protocol := some (bits.getD 2 []),
        typ := some (bits.getD 7 []) }
    some (candidateOptsLoop bits cand ((bits.length - 8) / 2) 8)

/-- The `parseGroup` helper of sdp.ts (with the identity `type` default):
split the value on spaces, the first token being the semantic and the
rest the items. -/
def parseGroup (dest : List GroupDescription) (value : Str) : List GroupDescription :=
  let bits := splitOn1 ' ' value
  if bits.length > 0 then dest ++ [⟨bits.headD [], bits.tail⟩] else dest

/-- The `GroupDescription.str` getter. -/
def groupStr (g : GroupDescription) : Str :=
  g.semantic ++ ' ' :: List.intercalate [' '] g.items

/-- Guarded single line helper for the serializers. -/
def optLine (b : Bool) (l : Str) : List Str := if b then [l] else []

/-- Assignment `sctpMap[k] = v` on a number-keyed JS object, which keeps
integer keys unique and iterates them in ascending order. -/
def objInsert (m : List (Nat × Str)) (k : Nat) (v : Str) : List (Nat × Str) :=
  match m with
  | [] => [(k, v)]
  | (k0, v0) :: rest =>
    if k < k0 then (k, v) :: (k0, v0) :: rest
    else if k = k0 then (k, v) :: rest
    else (k0, v0) :: objInsert rest k v

/-- The line list of `MediaDescription.toString` (in emission order). -/
def mediaLinesOf (m : MediaDescription) : List Str :=
  [str "m=" ++ m.kind ++ ' ' :: jsNumShow m.port ++ ' ' :: m.profile ++ ' ' ::
      List.intercalate [' '] m.fmt]
  ++ optLine (jsStrTruthy m.host) (str "c=" ++ ipAddressToSdp (jsShow m.host))
  ++ m.iceCandidates.map (fun c => str "a=candidate:" ++ candidateToSdp c)
  ++ optLine m.iceCandidatesComplete (str "a=end-of-candidates")
  ++ optLine (jsStrTruthy (m.iceParams.bind RTCIceParameters.usernameFragment))
      (str "a=ice-ufrag:" ++ jsShow (m.iceParams.bind RTCIceParameters.usernameFragment))
  ++ optLine (jsStrTruthy (m.iceParams.bind RTCIceParameters.password))
      (str "a=ice-pwd:" ++ jsShow (m.iceParams.bind RTCIceParameters.password))
  ++ optLine ((m.iceParams.map RTCIceParameters.iceLite).getD false) (str "a=ice-lite")
  ++ optLine (jsStrTruthy m.iceOptions) (str "a=ice-options:" ++ jsShow m.iceOptions)
  ++ (match m.dtlsParams with
      | some dp =>
        dp.fingerprints.map (fun f =>
          str "a=fingerprint:" ++ jsShow f.algorithm ++ ' ' :: jsShow f.value)
        ++ [str "a=setup:" ++ jsShow (dtlsRoleSetup dp.role)]
      | none => [])
  ++ optLine (jsStrTruthy m.rtpMuxId) (str "a=mid:" ++ jsShow m.rtpMuxId)
  ++ m.sctpMap.map (fun kv => str "a=sctpmap:" ++ natRepr kv.1 ++ ' ' :: kv.2)
  ++ optLine (jsNumTruthy m.sctpPort) (str "a=sctp-port:" ++ jsNumShow m.sctpPort)
  ++ (match m.sctpCapabilities with
      | some cap => [str "a=max-message-size:" ++ jsNumShow cap.maxMessageSize]
      | none => [])

/-- The `MediaDescription.toString` method: its lines joined with CRLF
plus a trailing CRLF. -/
def mediaStr (m : MediaDescription) : Str :=
  List.intercalate crlf (mediaLinesOf m) ++ crlf

/-- The session-level line list of the `SessionDescription.string`
getter. -/
def sessionLinesOf (d : SessionDescription) : List Str :=
  [str "v=" ++ jsNumShow d.version, str "o=" ++ jsShow d.origin, str "s=" ++ d.name]
  ++ optLine (jsStrTruthy d.host) (str "c=" ++ ipAddressToSdp (jsShow d.host))
  ++ [str "t=" ++ d.time]
  ++ d.group.map (fun g => str "a=group:" ++ groupStr g)
  ++ optLine d.extMapAllowMixed (str "a=extmap-allow-mixed")
  ++ d.msidSemantic.map (fun g => str "a=msid-semantic:" ++ groupStr g)

/-- The `SessionDescription.string` getter: session lines joined with
CRLF, a trailing CRLF, then every media section's `toString`
concatenated. -/
def sdpStr (d : SessionDescription) : Str :=
  List.intercalate crlf (sessionLinesOf d) ++ crlf
    ++ (d.media.map mediaStr).flatten

/-- One session-level line of `SessionDescription.parse`; `none` models a
thrown exception (`split` on an `undefined` attribute value). -/
def parseSessionLine (session : SessionDescription) (line : Str) :
    Option SessionDescription :=
  if (str "v=").isPrefixOf line then
    some { session with version := parseIntE (line.drop 2) }
  else if (str "o=").isPrefixOf line then some { session with origin := some (line.drop 2) }
  else if (str "s=").isPrefixOf line then some { session with name := line.drop 2 }
  else if (str "c=").isPrefixOf line then
    match ipAddressFromSdp (line.drop 2) with
    | none => none
    | some h => some { session with host := some h }
  else if (str "t=").isPrefixOf line then some { session with time := line.drop 2 }
  else if (str "a=").isPrefixOf line then
    let av := parseAttr line
    let attr := av.1
    let value := av.2
    if attr = str "fingerprint" then
      let parts := match value with | some v => splitOn1 ' ' v | none => []
      some { session with dtlsFingerprints :=
        session.dtlsFingerprints ++ [⟨parts.get? 0, parts.get? 1⟩] }
    else if attr = str "ice-lite" then some { session with iceLite := true }
    else if attr = str "ice-options" then some { session with iceOptions := value }
    else if attr = str "ice-pwd" then some { session with icePassword := value }
    else if attr = str "ice-ufrag" then some { session with iceUsernameFragment := value }
    else if attr = str "group" then
      match value with
      | none => none
      | some v => some { session with group := parseGroup session.group v }
    else if attr = str "msid-semantic" then
      match value with
      | none => none
      | some v => some { session with msidSemantic := parseGroup session.msidSemantic v }
    else if attr = str "setup" then some { session with dtlsRole := dtlsSetupRole value }
    else if attr = str "extmap-allow-mixed" then some { session with extMapAllowMixed := true }
    else some session
  else some session

/-- Decidable test for the `[A-Z/]` character class of the m-line
regular expression. -/
def isProfChar (c : Char) : Bool := (65 ≤ c.toNat && c.toNat ≤ 90) || c = '/'

/-- Matcher for `/^m=([^ ]+) ([0-9]+) ([A-Z/]+) (.+)/`: each `X+` capture
is a maximal nonempty run (a following literal space cannot backtrack
into any of these character classes), and the final `(.+)` takes the
nonempty remainder (lines contain no newlines, which `.` excludes). -/
def mLineParse (line : Str) : Option (Str × Str × Str × Str) :=
  if (str "m=").isPrefixOf line then
    let r0 := line.drop 2
    let kind := r0.takeWhile (fun c => c ≠ ' ')
    if kind.isEmpty then none
    else
      match r0.drop kind.length with
      | ' ' :: r1 =>
        let port := r1.takeWhile isDigitChar
        if port.isEmpty then none
        else
          match r1.drop port.length with
          | ' ' :: r2 =>
            let profile := r2.takeWhile isProfChar
            if profile.isEmpty then none
            else
              match r2.drop profile.length with
              | ' ' :: fmtStr => if fmtStr.isEmpty then none else some (kind, port, profile, fmtStr)
              | _ => none
          | _ => none
      | _ => none
  else none

/-- Model of `Number(s)` restricted to the decimal strings this code can
feed it (used only for audio/video format lists, which this profile never
produces); non-digit input is conflated with `NaN`. -/
def jsNumber (s : Str) : Option Nat :=
  if !s.isEmpty && s.all isDigitChar then some (natOfDigits s) else none

/-- One media-level line of the `mediaLines.slice(1).forEach` loop in
`SessionDescription.parse`; `none` models the thrown exceptions (missing
attribute values, unparsable candidates or `c=` lines, mutation through an
`undefined` `iceParams`/`dtlsParams`). -/
def parseMediaLine (cm : MediaDescription) (line : Str) : Option MediaDescription :=
  if (str "c=").isPrefixOf line then
    match ipAddressFromSdp (line.drop 2) with
    | none => none
    | some h => some { cm with host := some h }
  else if (str "a=").isPrefixOf line then
    let av := parseAttr line
    let attr := av.1
    let value := av.2
    if attr = str "candidate" then
      match value with
      | none => none
      | some v =>
        if v.isEmpty then none
        else
          match candidateFromSdp v with
          | none => none
          | some c => some { cm with iceCandidates := cm.iceCandidates ++ [c] }
    else if attr = str "end-of-candidates" then some { cm with iceCandidatesComplete := true }
    else if attr = str "extmap" then
      match value with
      | none => none
      | some _ => some cm
    else if attr = str "fingerprint" then
      match value with
      | none => none
      | some v =>
        if v.isEmpty then none
        else
          let parts := splitOn1 ' ' v
          some { cm with dtlsParams := cm.dtlsParams.map (fun dp =>
            { dp with fingerprints := dp.fingerprints ++ [⟨parts.get? 0, parts.get? 1⟩] }) }
    else if attr = str "ice-options" then some { cm with iceOptions := value }
    else if attr = str "ice-pwd" then
      match cm.iceParams with
      | none => none
      | some ip => some { cm with iceParams := some { ip with password := value } }
    else if attr = str "ice-ufrag" then
      match cm.iceParams with
      | none => none
      | some ip => some { cm with iceParams := some { ip with usernameFragment := value } }
    else if attr = str "ice-lite" then
      match cm.iceParams with
      | none => none
      | some ip => some { cm with iceParams := some { ip with iceLite := true } }
    else if attr = str "max-message-size" then
      let mms := match value with | some v => parseIntE v | none => none
      some { cm with sctpCapabilities := some ⟨mms⟩ }
    else if attr = str "mid" then some { cm with rtpMuxId := value }
    else if attr = str "setup" then
      match cm.dtlsParams with
      | none => none
      | some dp => some { cm with dtlsParams := some { dp with role := dtlsSetupRole value } }
    else if attr = str "sctpmap" then
      match value with
      | none => none
      | some v =>
        if v.isEmpty then none
        else
          let fd := divideChar ' ' v
          match parseIntE fd.1 with
          | none => none
          | some k => some { cm with sctpMap := objInsert cm.sctpMap k fd.2, sctpPort := some k }
    else if attr = str "sctp-port" then
      match value with
      | none => none
      | some v => if v.isEmpty then none else some { cm with sctpPort := parseIntE v }
    else some cm
  else some cm

/-- The credential-inheritance loop of `SessionDescription.parse` (over
`bundle.items.length` indices): the first index whose decimal rendering is
among the bundle items and whose media entry carries truthy ICE
credentials donates a copy of its `iceParams`. -/
def inheritLoop (items : List Str) (mediaList : List MediaDescription) :
    Nat → Nat → Option RTCIceParameters
  | _, 0 => none
  | i, count + 1 =>
    if items.contains (natRepr i) then
      match mediaList.get? i with
      | some check =>
        match check.iceParams with
        | some ip =>
          if jsStrTruthy ip.usernameFragment && jsStrTruthy ip.password then some ip
          else inheritLoop items mediaList (i + 1) count
        | none => inheritLoop items mediaList (i + 1) count
      | none => inheritLoop items mediaList (i + 1) count
    else inheritLoop items mediaList (i + 1) count

/-- One media group (an `m=` line and its following lines) of
`SessionDescription.parse`: match the m-line, build the media description
seeded from the session-level DTLS/ICE data, fold the attribute lines,
run the credential-inheritance block and the DTLS-role cleanup, and append
the result to the session's media list. -/
def parseMediaGroup (bundle : Option GroupDescription) (session : SessionDescription)
    (mediaLines : List Str) : Option SessionDescription :=
  match mediaLines with
  | [] => none
  | target :: rest =>
    match mLineParse target with
    | none => none
    | some (kind, portStr, profile, fmtStr) =>
      let fmt0 := splitOn1 ' ' fmtStr
      let fmt := if kind = str "audio" ∨ kind = str "video" then
          fmt0.map (fun v => jsNumShow (jsNumber v)) else fmt0
      let cm : MediaDescription :=
        { kind := kind, port := parseIntE portStr, profile := profile, fmt := fmt,
          dtlsParams := some ⟨session.dtlsFingerprints, session.dtlsRole⟩,
          iceParams := some ⟨session.iceLite, session.iceUsernameFragment, session.icePassword⟩,
          iceOptions := session.iceOptions }
      match List.foldlM parseMediaLine cm rest with
      | none => none
      | some cm =>
        match cm.iceParams with
        | none => none
        | some ip =>
          let cm :=
            if ¬(jsStrTruthy ip.usernameFragment = true ∧ jsStrTruthy ip.password = true) then
              match cm.rtpMuxId, bundle with
              | some mid, some b =>
                if ¬mid.isEmpty ∧ b.items.contains mid then
                  match inheritLoop b.items (session.media ++ [cm]) 0 b.items.length with
                  | some ipNew => { cm with iceParams := some ipNew }
                  | none => cm
                else cm
              | _, _ => cm
            else cm
          match cm.dtlsParams with
          | none => none
          | some dp =>
            let cm := if ¬jsStrTruthy dp.role then { cm with dtlsParams := none } else cm
            some { session with media := session.media ++ [cm] }

/-- The session-line prefix of `groupLines`: lines before the first `m=`
line, plus the remainder. -/
def groupLinesSession : List Str → List Str × List Str
  | [] => ([], [])
  | line :: rest =>
    if (str "m=").isPrefixOf line then ([], line :: rest)
    else
      let sr := groupLinesSession rest
      (line :: sr.1, sr.2)

/-- Lines of one media group: everything up to the next `m=` line. -/
def mediaChunk : List Str → List Str × List Str
  | [] => ([], [])
  | line :: rest =>
    if (str "m=").isPrefixOf line then ([], line :: rest)
    else
      let cr := mediaChunk rest
      (line :: cr.1, cr.2)

/-- Chunk the post-session lines into media groups, each starting at an
`m=` line (fuel-driven; the fuel is the line count). -/
def groupMediaF : Nat → List Str → List (List Str)
  | 0, _ => []
  | _, [] => []
  | fuel + 1, line :: rest =>
    let cr := mediaChunk rest
    (line :: cr.1) :: groupMediaF fuel cr.2

/-- The `SessionDescription.parse` function: split into lines (CRLF, with
a LF fallback when no CRLF is present), group them, fold the session
lines, then process each media group (the BUNDLE group is looked up once,
between the two phases); `none` models a thrown exception. -/
def parse (sdp : Str) : Option SessionDescription :=
  let lines0 := splitCRLF sdp
  let lines := if lines0.length = 1 then splitOn1 '\n' sdp else lines0
  let sl := groupLinesSession lines
  let mediaGroups := groupMediaF sl.2.length sl.2
  match List.foldlM parseSessionLine {} sl.1 with
  | none => none
  | some session =>
    let bundle := session.group.find? (fun g => g.semantic = str "BUNDLE")
    List.foldlM (parseMediaGroup bundle) session mediaGroups

/-! ### The emitted-description family

`buildOffer` is the description produced by `buildOfferSdp` +
`addSDPHeader` + `createMediaDescriptionForSctp` + `addTransportDescription`
(peerConnection.ts), parameterized by everything that varies across runs:
the origin line body, the allocated mid, the ICE credentials and gathered
candidates, the DTLS fingerprints and role, the SCTP port, and whether a
BUNDLE group is emitted (`bundlePolicy !== 'disable'`).  `buildAnswer` is
the description produced by `buildAnswer` + `addSDPHeader`, which carries
no media section.  `DISCARD_HOST = '0.0.0.0'` and `DISCARD_PORT = 9` are
modelled from const.ts (not among the provided sources). -/

/-- Parameters of one gathered ICE candidate as placed in the SDP. -/
structure CandParams where
  foundation : Str
  component : Nat
  protocol : Str
  priority : Nat
  ip : Str
  port : Nat
  typ : Str
  relatedAddress : Option Str := none
  relatedPort : Option Nat := none
  tcpType : Option Str := none
  deriving DecidableEq

/-- The `IceCandidate` the gatherer hands to `addTransportDescription`. -/
def buildCandidate (p : CandParams) : IceCandidate :=
  { component := some p.component, foundation := some p.foundation, ip := some p.ip,
    port := some p.port, priority := some p.priority, protocol := some p.protocol,
    typ := some p.typ, relatedAddress := p.relatedAddress,
    relatedPort := p.relatedPort, tcpType := p.tcpType }

/-- Everything that varies in an emitted offer. -/
structure OfferParams where
  origin : Str
  mid : Str
  ufrag : Str
  pwd : Str
  fingerprints : List (Str × Str)
  role : Str
  candidates : List CandParams
  gatherComplete : Bool
  sctpPort : Nat
  bundle : Bool

/-- The application media section of an emitted offer. -/
def buildAppMedia (p : OfferParams) : MediaDescription :=
  { kind := str "application", port := some 9, profile := str "UDP/DTLS/SCTP",
    fmt := [str "webrtc-datachannel"],
    host := some (str "0.0.0.0"),
    rtpMuxId := some p.mid,
    sctpCapabilities := some ⟨some 1200⟩,
    sctpMap := [],
    sctpPort := some p.sctpPort,
    dtlsParams := some ⟨p.fingerprints.map (fun f => ⟨some f.1, some f.2⟩), some p.role⟩,
    iceParams := some ⟨false, some p.ufrag, some p.pwd⟩,
    iceCandidates := p.candidates.map buildCandidate,
    iceCandidatesComplete := p.gatherComplete,
    iceOptions := some (str "trickle") }

/-- The emitted offer description. -/
def buildOffer (p : OfferParams) : SessionDescription :=
  { version := some 0,
    origin := some p.origin,
    name := str "-",
    time := str "0 0",
    host := none,
    group := if p.bundle then [⟨str "BUNDLE", [p.mid]⟩] else [],
    extMapAllowMixed := true,
    msidSemantic := [⟨str "WMS", [str "*"]⟩],
    type := some .offer,
    media := [buildAppMedia p] }

/-- The emitted answer description (no media section). -/
def buildAnswer (origin : Str) : SessionDescription :=
  { origin := some origin,
    msidSemantic := [⟨str "WMS", [str "*"]⟩],
    type := some .answer }

/-- A string free of CR and LF (safe as line content). -/
def lineOk (s : Str) : Prop := ∀ c ∈ s, c ≠ '\r' ∧ c ≠ '\n'

/-- A nonempty token free of CR, LF and spaces. -/
def tokenOk (s : Str) : Prop := s ≠ [] ∧ ∀ c ∈ s, c ≠ '\r' ∧ c ≠ '\n' ∧ c ≠ ' '

/-- Well-formedness of one candidate's parameters: the string fields are
space-free tokens and the optional related port, when present, is nonzero
(a zero port would be suppressed by JS numeric truthiness). -/
def CandParamsOk (c : CandParams) : Prop :=
  tokenOk c.foundation ∧ tokenOk c.protocol ∧ tokenOk c.ip ∧ tokenOk c.typ ∧
  (match c.relatedAddress with | some a => tokenOk a | none => True) ∧
  (match c.relatedPort with | some n => 0 < n | none => True) ∧
  (match c.tcpType with | some t => tokenOk t | none => True)

/-- Well-formedness of the offer parameters, satisfied by everything the
implementation actually emits. -/
def OfferParamsOk (p : OfferParams) : Prop :=
  lineOk p.origin ∧
  tokenOk p.mid ∧
  p.ufrag ≠ [] ∧ lineOk p.ufrag ∧
  p.pwd ≠ [] ∧ lineOk p.pwd ∧
  (∀ f ∈ p.fingerprints, tokenOk f.1 ∧ tokenOk f.2) ∧
  (p.role = str "auto" ∨ p.role = str "client" ∨ p.role = str "server") ∧
  (∀ c ∈ p.candidates, CandParamsOk c) ∧
  0 < p.sctpPort

end Sdp

namespace Pc

open Sdp

/-! ## Peer connection (src/peerConnection.ts)

The embedding covers the signaling-state machine, description
validation/storage and `close`; ICE/DTLS transport wiring, certificate
handling, event emission and candidate gathering either live in files not
part of the provided sources or do not touch the modelled fields. -/

/-- The `RTCSignalingState` union (types/domain.ts). -/
inductive RTCSignalingState
  | stable
  | haveLocalOffer
  | haveRemoteOffer
  | haveLocalPranswer
  | haveRemotePranswer
  | closed
  deriving DecidableEq

/-- The `ConnectionState` union (types/domain.ts). -/
inductive ConnectionState
  | new
  | connecting
  | connected
  | disconnected
  | failed
  | closed
  deriving DecidableEq

/-- The errors the modelled peer-connection paths can throw, one
constructor per `throw new Error(...)` site. -/
inductive PCError
  | cannotHandleOffer
  | cannotHandleAnswer
  | iceCredentialsMissing
  | missingOffer
  | mediaMismatch
  | invalidMediaKind
  | sctpPortMissing
  | sctpStopThrew
  deriving DecidableEq

/-- Mutable state of `RTCPeerConnection` (modelled fields). The SCTP
transport is modelled by the association state of its `SCTP` instance;
`RTCSctpTransport` itself (transport/sctp.ts) is not among the provided
sources. -/
structure PCState where
  isClosed : Bool := false
  signalingState : RTCSignalingState := .stable
  connectionState : ConnectionState := .new
  sctpTransport : Option Sctp.SctpState := none
  sctpRemotePort : Option Nat := none
  sctpMid : JStr := none
  sctpMLineIndex : Option Nat := none
  pendingLocalDescription : Option SessionDescription := none
  currentLocalDescription : Option SessionDescription := none
  pendingRemoteDescription : Option SessionDescription := none
  currentRemoteDescription : Option SessionDescription := none
  deriving DecidableEq

/-- The private `_localDescription` getter: pending before current. -/
def localDesc (pc : PCState) : Option SessionDescription :=
  pc.pendingLocalDescription <|> pc.currentLocalDescription

/-- The private `_remoteDescription` getter: pending before current. -/
def remoteDesc (pc : PCState) : Option SessionDescription :=
  pc.pendingRemoteDescription <|> pc.currentRemoteDescription

/-- The `setSignalingState` method (event emission is not modelled). -/
def setSignalingState (pc : PCState) (s : RTCSignalingState) : PCState :=
  { pc with signalingState := s }

/-- The `setConnectionState` method (event emission is not modelled). -/
def setConnectionState (pc : PCState) (s : ConnectionState) : PCState :=
  { pc with connectionState := s }

/-- The `(kind, index)` pair list `description.media.map((v, i) => [v.kind, i])`
that answer validation compares. -/
def mediaKindIndexPairs (d : SessionDescription) : List (Str × Nat) :=
  d.media.enum.map (fun p => (p.2.kind, p.1))

/-- ICE-credential presence for one media section, the body of the
`description.media.forEach` check in `validateDescription`. -/
def mediaCredsOk (m : MediaDescription) : Bool :=
  match m.iceParams with
  | none => false
  | some ip => jsStrTruthy ip.usernameFragment && jsStrTruthy ip.password

/-- The `validateDescription` method: signaling-state gate first, then the
per-media ICE-credential check, then (for answers) the `(kind, index)`
comparison against the stored counterpart offer.  Returns the first
thrown error, `none` when validation passes. -/
def validateDescription (pc : PCState) (description : SessionDescription)
    (isLocal : Bool) : Option PCError :=
  let stateErr : Option PCError :=
    if isLocal then
      match description.type with
      | some .offer =>
        if pc.signalingState = .stable ∨ pc.signalingState = .haveLocalOffer then none
        else some .cannotHandleOffer
      | some .answer =>
        if pc.signalingState = .haveRemoteOffer ∨ pc.signalingState = .haveLocalPranswer then none
        else some .cannotHandleAnswer
      | none => none
    else
      match description.type with
      | some .offer =>
        if pc.signalingState = .stable ∨ pc.signalingState = .haveRemoteOffer then none
        else some .cannotHandleOffer
      | some .answer =>
        if pc.signalingState = .haveLocalOffer ∨ pc.signalingState = .haveRemotePranswer then none
        else some .cannotHandleAnswer
      | none => none
  match stateErr with
  | some e => some e
  | none =>
    if description.media.any (fun m => !mediaCredsOk m) then some .iceCredentialsMissing
    else if description.type = some .answer then
      match (if isLocal then remoteDesc pc else localDesc pc) with
      | none => some .missingOffer
      | some offer =>
        if mediaKindIndexPairs description ≠ mediaKindIndexPairs offer then some .mediaMismatch
        else none
    else none

/-- The `setLocal` helper: an answer becomes the current local description
(clearing the pending one); an offer stays pending. -/
def setLocal (pc : PCState) (d : SessionDescription) : PCState :=
  if d.type = some .answer then
    { pc with currentLocalDescription := some d, pendingLocalDescription := none }
  else { pc with pendingLocalDescription := some d }

/-- The `setLocalDescription` method on an already parsed description
(state-affecting prefix; ICE/DTLS role setup, connecting and candidate
gathering touch only unmodelled transport state).  The pair carries the
updated state and the thrown error, if any. -/
def setLocalDescription (pc : PCState) (description : SessionDescription) :
    PCState × Option PCError :=
  match validateDescription pc description true with
  | some e => (pc, some e)
  | none =>
    let pc :=
      match description.type with
      | some .offer => setSignalingState pc .haveLocalOffer
      | some .answer => setSignalingState pc .stable
      | none => pc
    (setLocal pc description, none)

/-- The per-media body of the `remoteSdp.media.map` loop in
`setRemoteDescription`: only `application` media are accepted, an SCTP
transport is created on demand (`createSctpTransport`; the fresh
association state carries unmodelled random tags, the default record
stands in for it), and `setRemoteSCTP` records the remote port (throwing
on a missing/zero `sctpPort`), the media-line index, and the mux id. -/
def applyRemoteMedia : PCState → List MediaDescription → Nat → PCState × Option PCError
  | pc, [], _ => (pc, none)
  | pc, m :: rest, i =>
    if m.kind ≠ str "application" then (pc, some .invalidMediaKind)
    else
      let pc :=
        if pc.sctpTransport.isSome then pc
        else { pc with sctpTransport := some {}, sctpMid := m.rtpMuxId }
      let pc := { pc with sctpRemotePort := m.sctpPort }
      if !jsNumTruthy pc.sctpRemotePort then (pc, some .sctpPortMissing)
      else
        let pc :=
          { pc with
            sctpTransport := pc.sctpTransport.map (fun s => { s with remotePort := m.sctpPort })
            sctpMLineIndex := some i
            sctpMid := if jsStrTruthy pc.sctpMid then pc.sctpMid else m.rtpMuxId }
        applyRemoteMedia pc rest (i + 1)

/-- Description storage step of `setRemoteDescription` (inline in the
source): an answer becomes the current remote description (clearing the
pending one); an offer stays pending. -/
def storeRemote (pc : PCState) (d : SessionDescription) : PCState :=
  if d.type = some .answer then
    { pc with currentRemoteDescription := some d, pendingRemoteDescription := none }
  else { pc with pendingRemoteDescription := some d }

/-- The `setRemoteDescription` method on an already parsed description:
validate, store the description, run the media loop (whose throws leave
the already stored description in place) and only then update the
signaling state. -/
def setRemoteDescription (pc : PCState) (remoteSdp : SessionDescription) :
    PCState × Option PCError :=
  match validateDescription pc remoteSdp false with
  | some e => (pc, some e)
  | none =>
    let pc := storeRemote pc remoteSdp
    match applyRemoteMedia pc remoteSdp.media 0 with
    | (pc, some e) => (pc, some e)
    | (pc, none) =>
      let pc :=
        match remoteSdp.type with
        | some .offer => setSignalingState pc .haveRemoteOffer
        | some .answer => setSignalingState pc .stable
        | none => pc
      (pc, none)

/-- The `close` method: a second call returns immediately; the first call
marks the connection closed, moves the signaling and connection states to
`closed`, and stops the SCTP transport (`RTCSctpTransport.stop` is not
among the provided sources; modelled from the spec as stopping the
association via `SCTP.stop`, which also cancels its timers).  DTLS/ICE
transport teardown and event-listener disposal touch only unmodelled
state. -/
def close (pc : PCState) : PCState × Option PCError :=
  if pc.isClosed then (pc, none)
  else
    let pc := { pc with isClosed := true }
    let pc := setSignalingState pc .closed
    let pc := setConnectionState pc .closed
    match pc.sctpTransport with
    | none => (pc, none)
    | some s =>
      match Sctp.stop s with
      | none => (pc, some .sctpStopThrew)
      | some (s2, _) => ({ pc with sctpTransport := some s2 }, none)

/-- State reached by a `close` call (dropping the error component). -/
def closeSt (pc : PCState) : PCState := (close pc).1

end Pc

/-! ## Specification-side definitions -/

/-- Specification-side counterpart for claim C3, following the spec's
words: starting from the previous `last-received-tsn`, the maximum `t'`
such that every TSN value in the modular interval `(prev, t']` has been
received — computed as the greedy chain `prev+1, prev+2, …` through the
received set (the fuel `received.length` bounds the chain, which cannot
revisit values without exhausting the set). -/
def specLastReceivedTsnGo (received : List Nat) : Nat → Nat → Nat
  | prev, 0 => prev
  | prev, fuel + 1 =>
    if received.contains (Sctp.tsnPlusOne prev) then
      specLastReceivedTsnGo received (Sctp.tsnPlusOne prev) fuel
    else prev

/-- Specification-side value of `last-received-tsn` after a set of TSNs
has been received, per the spec's invariant 2. -/
def specLastReceivedTsn (prev : Nat) (received : List Nat) : Nat :=
  specLastReceivedTsnGo received prev received.length

/-! ## Example states used by concrete theorems -/

/-- An established server-side association with `last-received-tsn` 1. -/
def exEst : Sctp.SctpState :=
  { associationState := .ESTABLISHED, connState := .connected, isServer := true,
    localPort := 5000, localVerificationTag := 99, remotePort := some 5000,
    remoteVerificationTag := 77, lastReceivedTsn := some 1, localTsn := 0 }

/-- A concrete stand-in for the keyed HMAC-SHA1 digest function (any
20-byte-valued function exercises the cookie-validation logic). -/
def exHmac : List Nat → List Nat := fun _ => List.replicate 20 0

/-- A server-side association that has not yet reached ESTABLISHED,
awaiting a COOKIE_ECHO. -/
def exSrv : Sctp.SctpState :=
  { exEst with associationState := .CLOSED, connState := .connecting }

/-- One valid application media section (ICE credentials present). -/
def exAppMedia : Sdp.MediaDescription :=
  { kind := str "application", port := some 9, profile := str "UDP/DTLS/SCTP",
    fmt := [str "webrtc-datachannel"], sctpPort := some 5000,
    iceParams := some { iceLite := false, usernameFragment := some (str "abcd"),
                        password := some (str "secretsecretsecretsecret") } }

/-- A parsed offer with one application media section. -/
def exOfferDesc : Sdp.SessionDescription :=
  { type := some .offer, media := [exAppMedia] }

/-- A parsed answer whose media sections match `exOfferDesc`. -/
def exAnswerDesc : Sdp.SessionDescription :=
  { type := some .answer, media := [exAppMedia] }

/-- A parsed answer whose media sections do not match `exOfferDesc`
(an `audio` section instead of the offered `application` one). -/
def exBadAnswerDesc : Sdp.SessionDescription :=
  { type := some .answer, media := [{ exAppMedia with kind := str "audio" }] }

/-- A fresh (stable) peer connection. -/
def exPcStable : Pc.PCState := {}

/-- A peer connection in `have-remote-offer` holding `exOfferDesc`. -/
def exPcRemoteOffer : Pc.PCState :=
  { signalingState := .haveRemoteOffer, pendingRemoteDescription := some exOfferDesc }

/-- A connected peer connection owning an SCTP transport. -/
def exPcConnected : Pc.PCState :=
  { signalingState := .stable, connectionState := .connected,
    sctpTransport := some exEst, sctpRemotePort := some 5000,
    currentLocalDescription := some exOfferDesc,
    currentRemoteDescription := some exAnswerDesc }


/-- Decidability of `lineOk` (the predicate unfolds to a decidable
bounded quantifier). -/
instance (s : Str) : Decidable (Sdp.lineOk s) := by
  unfold Sdp.lineOk
  infer_instance

instance (s : Str) : Decidable (Sdp.tokenOk s) := by
  unfold Sdp.tokenOk
  infer_instance

instance (c : Sdp.CandParams) : Decidable (Sdp.CandParamsOk c) := by
  unfold Sdp.CandParamsOk
  cases hra : c.relatedAddress <;> cases hrp : c.relatedPort <;> cases htt : c.tcpType <;>
    exact inferInstance

instance (p : Sdp.OfferParams) : Decidable (Sdp.OfferParamsOk p) := by
  unfold Sdp.OfferParamsOk
  infer_instance


/-- Offer parameters of one concrete emitted offer (used to evaluate the
round-trip at a representative input). -/
def exOfferParams : Sdp.OfferParams :=
  { origin := str "- 4284922571 0 IN IP4 0.0.0.0",
    mid := str "0dc",
    ufrag := str "abcd",
    pwd := str "secretpwd01234567890sec",
    fingerprints := [(str "sha-256", str "AA:BB:CC")],
    role := str "auto",
    candidates := [{ foundation := str "1", component := 1, protocol := str "udp",
                     priority := 2130706431, ip := str "192.168.1.7", port := 52431,
                     typ := str "host" }],
    gatherComplete := true,
    sctpPort := 5000,
    bundle := true }

/-! ## Helper lemmas -/

namespace Sctp

theorem advanceLrt_isSome (l : List Nat) (x : Nat) :
    ∃ y, advanceLrt l (some x) = some y := by
  induction l generalizing x with
  | nil => exact ⟨x, rfl⟩
  | cons t rest ih =>
    simp only [advanceLrt]
    split
    · exact ih t
    · exact ⟨x, rfl⟩

theorem markReceived_connState (st : SctpState) (t : Nat) :
    (markReceived st t).connState = st.connState := by
  unfold markReceived; split <;> rfl

theorem markReceived_remotePort (st : SctpState) (t : Nat) :
    (markReceived st t).remotePort = st.remotePort := by
  unfold markReceived; split <;> rfl

theorem markReceived_localPort (st : SctpState) (t : Nat) :
    (markReceived st t).localPort = st.localPort := by
  unfold markReceived; split <;> rfl

theorem markReceived_remoteVerificationTag (st : SctpState) (t : Nat) :
    (markReceived st t).remoteVerificationTag = st.remoteVerificationTag := by
  unfold markReceived; split <;> rfl

theorem markReceived_advertisedRwnd (st : SctpState) (t : Nat) :
    (markReceived st t).advertisedRwnd = st.advertisedRwnd := by
  unfold markReceived; split <;> rfl

theorem markReceived_sackNeeded (st : SctpState) (t : Nat) :
    (markReceived st t).sackNeeded = st.sackNeeded := by
  unfold markReceived; split <;> rfl

theorem markReceived_lrt_isSome (st : SctpState) (t : Nat) (x : Nat)
    (h : st.lastReceivedTsn = some x) :
    ∃ y, (markReceived st t).lastReceivedTsn = some y := by
  unfold markReceived
  split
  · exact ⟨x, by simpa using h⟩
  · obtain ⟨y, hy⟩ := advanceLrt_isSome (jsSortNats (setAdd st.sackMisOrdered t)) x
    exact ⟨y, by simp [h, hy]⟩

/-- Shape of `sendSack` on a sendable state with a known last-received
TSN. -/
theorem sendSack_shape (st : SctpState) (rp y : Nat)
    (hrp : st.remotePort = some rp) (hconn : st.connState ≠ .closed)
    (hlrt : st.lastReceivedTsn = some y) :
    sendSack st = some ({ st with sackDuplicates := [], sackNeeded := false },
      [⟨st.localPort, rp, st.remoteVerificationTag,
        .sack y (max 0 st.advertisedRwnd)
          ((jsSortNats st.sackMisOrdered).foldl (sackGapsStep y) ([], none)).1
          st.sackDuplicates⟩]) := by
  simp only [sendSack, hlrt, sendChunk, if_neg hconn, hrp]

/-- Shape of `handleData` on a DATA chunk with the correct verification
tag: one delivery and one flushed SACK packet. -/
theorem handleData_data_shape (hmac : List Nat → List Nat) (now : ℚ) (st : SctpState)
    (d : DataChunkFields) (rp l : Nat)
    (hrp : st.remotePort = some rp) (hconn : st.connState ≠ .closed)
    (hlrt : st.lastReceivedTsn = some l) :
    ∃ cum gaps,
      handleData hmac now st st.localVerificationTag (.data d) =
        some ({ markReceived { st with sackNeeded := true } d.tsn with
                  sackDuplicates := [], sackNeeded := false },
          { packets := [⟨st.localPort, rp, st.remoteVerificationTag,
              .sack cum (max 0 st.advertisedRwnd) gaps
                (markReceived { st with sackNeeded := true } d.tsn).sackDuplicates⟩],
            deliveries := [(d.streamId, d.protocol, d.userData)] }) := by
  obtain ⟨y, hy⟩ :=
    markReceived_lrt_isSome { st with sackNeeded := true } d.tsn l (by simpa using hlrt)
  have hss := sendSack_shape (markReceived { st with sackNeeded := true } d.tsn) rp y
    (by rw [markReceived_remotePort]; simpa using hrp)
    (by rw [markReceived_connState]; simpa using hconn)
    hy
  have main : handleData hmac now st st.localVerificationTag (.data d) =
      some ({ markReceived { st with sackNeeded := true } d.tsn with
                sackDuplicates := [], sackNeeded := false },
        { packets := [⟨st.localPort, rp, st.remoteVerificationTag,
            .sack y (max 0 st.advertisedRwnd)
              ((jsSortNats (markReceived { st with sackNeeded := true } d.tsn).sackMisOrdered).foldl
                (sackGapsStep y) ([], none)).1
              (markReceived { st with sackNeeded := true } d.tsn).sackDuplicates⟩],
          deliveries := [(d.streamId, d.protocol, d.userData)] }) := by
    simp [handleData, receiveChunk, receiveDataChunk, markReceived_sackNeeded, hss,
      markReceived_localPort, markReceived_remoteVerificationTag, markReceived_advertisedRwnd]
  exact ⟨y, _, main⟩

/-- Shape of `sendChunk` on a sendable state. -/
theorem sendChunk_shape (st : SctpState) (c : Chunk) (rp : Nat)
    (hrp : st.remotePort = some rp) (hconn : st.connState ≠ .closed) :
    sendChunk st c = some [⟨st.localPort, rp, st.remoteVerificationTag, c⟩] := by
  simp [sendChunk, hrp, hconn]

/-- Shape of `send` on a sendable state: the full after-state and the
single emitted DATA packet, explicitly. -/
theorem send_shape (st : SctpState) (sid pp : Nat) (ud : List Nat)
    (opts : SendOptions) (rp : Nat)
    (hrp : st.remotePort = some rp) (hconn : st.connState ≠ .closed) :
    send st sid pp ud opts = some
      ({ st with
          localTsn := tsnPlusOne st.localTsn,
          outboundStreamSeq :=
            if opts.ordered then
              setSeq st.outboundStreamSeq sid
                (uint16Add ((lookupSeq st.outboundStreamSeq sid).getD 0) 1)
            else st.outboundStreamSeq,
          flightSize := st.flightSize + ud.length },
        [⟨st.localPort, rp, st.remoteVerificationTag,
          .data ⟨((if opts.ordered then 0 else SCTP_DATA_UNORDERED) |||
              SCTP_DATA_FIRST_FRAG) ||| SCTP_DATA_LAST_FRAG,
            st.localTsn, sid,
            if opts.ordered then (lookupSeq st.outboundStreamSeq sid).getD 0 else 0,
            pp, ud⟩⟩]) := by
  cases ho : opts.ordered <;>
  · simp only [send, sendChunk, ho, if_true, if_false, hrp]
    rw [if_neg (by simpa using hconn)]
    simp [hrp, hconn]

end Sctp

namespace Pc

open Sdp

theorem setLocal_signalingState (pc : PCState) (d : SessionDescription) :
    (setLocal pc d).signalingState = pc.signalingState := by
  unfold setLocal; split <;> rfl

theorem storeRemote_signalingState (pc : PCState) (d : SessionDescription) :
    (storeRemote pc d).signalingState = pc.signalingState := by
  unfold storeRemote; split <;> rfl

theorem setLocalDescription_err (pc : PCState) (d : SessionDescription) :
    (setLocalDescription pc d).2 = validateDescription pc d true := by
  cases h : validateDescription pc d true <;> simp [setLocalDescription, h]

theorem setLocalDescription_validate_fail (pc : PCState) (d : SessionDescription)
    (e : PCError) (h : validateDescription pc d true = some e) :
    setLocalDescription pc d = (pc, some e) := by
  simp [setLocalDescription, h]

theorem setLocalDescription_ok (pc : PCState) (d : SessionDescription)
    (h : validateDescription pc d true = none) :
    setLocalDescription pc d =
      (setLocal (match d.type with
        | some .offer => setSignalingState pc .haveLocalOffer
        | some .answer => setSignalingState pc .stable
        | none => pc) d, none) := by
  simp [setLocalDescription, h]

theorem applyRemoteMedia_signalingState (ms : List MediaDescription) :
    ∀ (pc : PCState) (i : Nat),
      (applyRemoteMedia pc ms i).1.signalingState = pc.signalingState := by
  induction ms with
  | nil => intro pc i; rfl
  | cons m rest ih =>
    intro pc i
    unfold applyRemoteMedia
    by_cases hk : m.kind ≠ str "application"
    · rw [if_pos hk]
    · rw [if_neg hk]
      by_cases h1 : pc.sctpTransport.isSome <;> simp [h1] <;> split <;> simp [ih]

theorem applyRemoteMedia_err (ms : List MediaDescription) :
    ∀ (pc : PCState) (i : Nat),
      (applyRemoteMedia pc ms i).2 = none ∨
      (applyRemoteMedia pc ms i).2 = some .invalidMediaKind ∨
      (applyRemoteMedia pc ms i).2 = some .sctpPortMissing := by
  induction ms with
  | nil => intro pc i; left; rfl
  | cons m rest ih =>
    intro pc i
    unfold applyRemoteMedia
    by_cases hk : m.kind ≠ str "application"
    · rw [if_pos hk]; right; left; rfl
    · rw [if_neg hk]
      by_cases h1 : pc.sctpTransport.isSome <;> simp [h1] <;> split
      all_goals first
      | (right; right; rfl)
      | apply ih
      | exact ih pc (i + 1)

theorem setRemoteDescription_validate_fail (pc : PCState) (d : SessionDescription)
    (e : PCError) (h : validateDescription pc d false = some e) :
    setRemoteDescription pc d = (pc, some e) := by
  simp [setRemoteDescription, h]

theorem setRemoteDescription_err_mem (pc : PCState) (d : SessionDescription) :
    (setRemoteDescription pc d).2 = validateDescription pc d false ∨
    (setRemoteDescription pc d).2 = none ∨
    (setRemoteDescription pc d).2 = some .invalidMediaKind ∨
    (setRemoteDescription pc d).2 = some .sctpPortMissing := by
  cases hv : validateDescription pc d false with
  | some e => left; simp [setRemoteDescription, hv]
  | none =>
    right
    simp only [setRemoteDescription, hv]
    rcases happ : applyRemoteMedia (storeRemote pc d) d.media 0 with ⟨pc2, e2⟩
    have herr := applyRemoteMedia_err d.media (storeRemote pc d) 0
    rw [happ] at herr
    cases e2 with
    | none => left; rfl
    | some e =>
      rcases herr with herr | herr | herr
      · exact absurd herr (by simp)
      · right; left; simpa using herr
      · right; right; simpa using herr

theorem setRemoteDescription_sig_fail (pc : PCState) (d : SessionDescription)
    (h : (setRemoteDescription pc d).2 ≠ none) :
    (setRemoteDescription pc d).1.signalingState = pc.signalingState := by
  cases hv : validateDescription pc d false with
  | some e => rw [setRemoteDescription_validate_fail pc d e hv]
  | none =>
    simp only [setRemoteDescription, hv] at h ⊢
    rcases happ : applyRemoteMedia (storeRemote pc d) d.media 0 with ⟨pc2, e2⟩
    have hsig := applyRemoteMedia_signalingState d.media (storeRemote pc d) 0
    rw [happ] at hsig h
    simp only at hsig
    cases e2 with
    | none => simp at h
    | some e =>
      show pc2.signalingState = pc.signalingState
      rw [hsig, storeRemote_signalingState]

theorem setRemoteDescription_sig_ok (pc : PCState) (d : SessionDescription)
    (hv : validateDescription pc d false = none)
    (h : (setRemoteDescription pc d).2 = none) (t : SdpType) (ht : d.type = some t) :
    (setRemoteDescription pc d).1.signalingState =
      (match t with
        | .offer => RTCSignalingState.haveRemoteOffer
        | .answer => RTCSignalingState.stable) := by
  simp only [setRemoteDescription, hv] at h ⊢
  rcases happ : applyRemoteMedia (storeRemote pc d) d.media 0 with ⟨pc2, e2⟩
  rw [happ] at h
  cases e2 with
  | some e => simp at h
  | none => cases t <;> simp [ht, setSignalingState]

theorem validate_local_offer_fail (pc : PCState) (d : SessionDescription)
    (ht : d.type = some .offer)
    (h : ¬(pc.signalingState = .stable ∨ pc.signalingState = .haveLocalOffer)) :
    validateDescription pc d true = some .cannotHandleOffer := by
  simp [validateDescription, ht, h]

theorem validate_local_answer_fail (pc : PCState) (d : SessionDescription)
    (ht : d.type = some .answer)
    (h : ¬(pc.signalingState = .haveRemoteOffer ∨ pc.signalingState = .haveLocalPranswer)) :
    validateDescription pc d true = some .cannotHandleAnswer := by
  simp [validateDescription, ht, h]

theorem validate_remote_offer_fail (pc : PCState) (d : SessionDescription)
    (ht : d.type = some .offer)
    (h : ¬(pc.signalingState = .stable ∨ pc.signalingState = .haveRemoteOffer)) :
    validateDescription pc d false = some .cannotHandleOffer := by
  simp [validateDescription, ht, h]

theorem validate_remote_answer_fail (pc : PCState) (d : SessionDescription)
    (ht : d.type = some .answer)
    (h : ¬(pc.signalingState = .haveLocalOffer ∨ pc.signalingState = .haveRemotePranswer)) :
    validateDescription pc d false = some .cannotHandleAnswer := by
  simp [validateDescription, ht, h]

theorem validate_local_offer_allowed (pc : PCState) (d : SessionDescription)
    (ht : d.type = some .offer)
    (h : pc.signalingState = .stable ∨ pc.signalingState = .haveLocalOffer) :
    validateDescription pc d true = none ∨
    validateDescription pc d true = some .iceCredentialsMissing := by
  simp only [validateDescription, ht]
  rw [if_pos h]
  by_cases hany : d.media.any (fun m => !mediaCredsOk m) <;> simp [hany]

theorem validate_remote_offer_allowed (pc : PCState) (d : SessionDescription)
    (ht : d.type = some .offer)
    (h : pc.signalingState = .stable ∨ pc.signalingState = .haveRemoteOffer) :
    validateDescription pc d false = none ∨
    validateDescription pc d false = some .iceCredentialsMissing := by
  simp only [validateDescription, ht]
  rw [if_pos h]
  by_cases hany : d.media.any (fun m => !mediaCredsOk m) <;> simp [hany]

theorem validate_local_answer_allowed (pc : PCState) (d : SessionDescription)
    (ht : d.type = some .answer)
    (h : pc.signalingState = .haveRemoteOffer ∨ pc.signalingState = .haveLocalPranswer) :
    validateDescription pc d true = none ∨
    validateDescription pc d true = some .iceCredentialsMissing ∨
    validateDescription pc d true = some .missingOffer ∨
    validateDescription pc d true = some .mediaMismatch := by
  simp only [validateDescription, ht]
  rw [if_pos h]
  by_cases hany : d.media.any (fun m => !mediaCredsOk m) <;> simp only [hany] <;>
    cases hoff : remoteDesc pc <;> split_ifs <;> simp_all <;> tauto

theorem validate_remote_answer_allowed (pc : PCState) (d : SessionDescription)
    (ht : d.type = some .answer)
    (h : pc.signalingState = .haveLocalOffer ∨ pc.signalingState = .haveRemotePranswer) :
    validateDescription pc d false = none ∨
    validateDescription pc d false = some .iceCredentialsMissing ∨
    validateDescription pc d false = some .missingOffer ∨
    validateDescription pc d false = some .mediaMismatch := by
  simp only [validateDescription, ht]
  rw [if_pos h]
  by_cases hany : d.media.any (fun m => !mediaCredsOk m) <;> simp only [hany] <;>
    cases hoff : localDesc pc <;> split_ifs <;> simp_all <;> tauto

theorem closeSt_isClosed (pc : PCState) : (closeSt pc).isClosed = true := by
  unfold closeSt close
  split
  · assumption
  · dsimp only [setSignalingState, setConnectionState]
    split
    · rfl
    · split <;> rfl

theorem closeSt_fix (pc : PCState) (h : pc.isClosed = true) : closeSt pc = pc := by
  unfold closeSt close
  rw [if_pos h]

end Pc

/-! ### SDP serializer and parser lemmas (claim C8) -/

theorem splitOn1_token (sep : Char) (t s : Str) (h : sep ∉ t) :
    splitOn1 sep (t ++ sep :: s) = t :: splitOn1 sep s := by
  induction t with
  | nil => simp [splitOn1]
  | cons c cs ih =>
    have hc : c ≠ sep := fun hh => h (hh ▸ List.mem_cons_self c cs)
    have hcs : sep ∉ cs := fun hh => h (List.mem_cons_of_mem c hh)
    show splitOn1 sep (c :: (cs ++ sep :: s)) = (c :: cs) :: splitOn1 sep s
    simp only [splitOn1, if_neg hc]
    rw [ih hcs]
    rfl

theorem splitOn1_single (sep : Char) (t : Str) (h : sep ∉ t) : splitOn1 sep t = [t] := by
  induction t with
  | nil => rfl
  | cons c cs ih =>
    have hc : c ≠ sep := fun hh => h (hh ▸ List.mem_cons_self c cs)
    have hcs : sep ∉ cs := fun hh => h (List.mem_cons_of_mem c hh)
    simp only [splitOn1, if_neg hc, ih hcs, consHead]

theorem intercalate_cons_cons (sep a b : Str) (rest : List Str) :
    List.intercalate sep (a :: b :: rest) = a ++ sep ++ List.intercalate sep (b :: rest) := by
  simp [List.intercalate, List.intersperse]

theorem intercalate_single (sep a : Str) : List.intercalate sep [a] = a := by
  simp [List.intercalate]

theorem splitOn1_intercalate (sep : Char) (ts : List Str) (hne : ts ≠ [])
    (h : ∀ t ∈ ts, sep ∉ t) : splitOn1 sep (List.intercalate [sep] ts) = ts := by
  induction ts with
  | nil => exact absurd rfl hne
  | cons t rest ih =>
    cases rest with
    | nil => rw [intercalate_single]; exact splitOn1_single sep t (h t (by simp))
    | cons t2 rest2 =>
      rw [intercalate_cons_cons, List.append_assoc]
      have : ([sep] : Str) ++ List.intercalate [sep] (t2 :: rest2) =
          sep :: List.intercalate [sep] (t2 :: rest2) := rfl
      rw [this, splitOn1_token sep t _ (h t (by simp))]
      rw [ih (by simp) (fun x hx => h x (List.mem_cons_of_mem t hx))]

theorem splitCRLF_cons (c : Char) (s : Str) (h : c ≠ '\r') :
    splitCRLF (c :: s) = consHead c (splitCRLF s) := by
  cases s with
  | nil => rfl
  | cons d rest =>
    have hnc : ¬(c = '\r' ∧ d = '\n') := fun hh => h hh.1
    simp only [splitCRLF, if_neg hnc]

theorem splitCRLF_crlf (s : Str) : splitCRLF ('\r' :: '\n' :: s) = [] :: splitCRLF s := by
  simp [splitCRLF]

theorem splitCRLF_append (l s : Str) (hd : Str) (tl : List Str) (hl : '\r' ∉ l)
    (hs : splitCRLF s = hd :: tl) : splitCRLF (l ++ s) = (l ++ hd) :: tl := by
  induction l with
  | nil => simpa using hs
  | cons c cs ih =>
    have hc : c ≠ '\r' := fun hh => hl (hh ▸ List.mem_cons_self c cs)
    have hcs : '\r' ∉ cs := fun hh => hl (List.mem_cons_of_mem c hh)
    rw [List.cons_append, splitCRLF_cons c _ hc, ih hcs]
    rfl

theorem splitCRLF_ne_nil (s : Str) : splitCRLF s ≠ [] := by
  induction s using splitCRLF.induct with
  | case1 => simp [splitCRLF]
  | case2 c => simp [splitCRLF]
  | case3 c d rest hcd ih =>
    rw [show (c :: d :: rest : Str) = c :: (d :: rest) from rfl]
    rw [splitCRLF]
    simp only [if_pos hcd]
    simp
  | case4 c d rest hcd ih =>
    rw [show (c :: d :: rest : Str) = c :: (d :: rest) from rfl]
    rw [splitCRLF]
    simp only [if_neg hcd]
    cases hsp : splitCRLF (d :: rest) with
    | nil => exact absurd hsp ih
    | cons a as => simp [consHead]

theorem splitCRLF_block (ls : List Str) (rest : Str) (hne : ls ≠ [])
    (h : ∀ l ∈ ls, '\r' ∉ l) :
    splitCRLF (List.intercalate crlf ls ++ crlf ++ rest) = ls ++ splitCRLF rest := by
  induction ls with
  | nil => exact absurd rfl hne
  | cons l tail ih =>
    cases hsp : splitCRLF rest with
    | nil => exact absurd hsp (splitCRLF_ne_nil rest)
    | cons hd tl =>
      cases tail with
      | nil =>
        rw [intercalate_single, List.append_assoc]
        have hcr : splitCRLF (crlf ++ rest) = [] :: hd :: tl := by
          rw [show (crlf ++ rest : Str) = '\r' :: '\n' :: rest from rfl, splitCRLF_crlf, hsp]
        have := splitCRLF_append l (crlf ++ rest) [] (hd :: tl) (h l (by simp)) hcr
        simpa using this
      | cons l2 tail2 =>
        have hrec := ih (by simp) (fun x hx => h x (List.mem_cons_of_mem l hx))
        rw [hsp] at hrec
        rw [intercalate_cons_cons]
        have hsh : l ++ crlf ++ List.intercalate crlf (l2 :: tail2) ++ crlf ++ rest =
            l ++ (crlf ++ (List.intercalate crlf (l2 :: tail2) ++ crlf ++ rest)) := by
          simp [List.append_assoc]
        rw [hsh]
        have hcr : splitCRLF (crlf ++ (List.intercalate crlf (l2 :: tail2) ++ crlf ++ rest)) =
            [] :: ((l2 :: tail2) ++ hd :: tl) := by
          rw [show (crlf ++ (List.intercalate crlf (l2 :: tail2) ++ crlf ++ rest) : Str) =
            '\r' :: '\n' :: (List.intercalate crlf (l2 :: tail2) ++ crlf ++ rest) from rfl]
          rw [splitCRLF_crlf, hrec]
        have := splitCRLF_append l _ [] ((l2 :: tail2) ++ hd :: tl) (h l (by simp)) hcr
        simpa using this

theorem digitChar_toNat (d : Nat) (h : d < 10) : (digitChar d).toNat = 48 + d := by
  interval_cases d <;> rfl

theorem natOfDigits_append_one (xs : Str) (c : Char) :
    natOfDigits (xs ++ [c]) = natOfDigits xs * 10 + (c.toNat - 48) := by
  simp [natOfDigits, List.foldl_append]

theorem natOfDigits_revmap (l : List Nat) (h : ∀ d ∈ l, d < 10) :
    natOfDigits (l.reverse.map digitChar) = Nat.ofDigits 10 l := by
  induction l with
  | nil => rfl
  | cons d rest ih =>
    rw [List.reverse_cons, List.map_append]
    simp only [List.map_cons, List.map_nil]
    rw [natOfDigits_append_one, ih (fun x hx => h x (List.mem_cons_of_mem d hx))]
    rw [digitChar_toNat d (h d (List.mem_cons_self d rest))]
    rw [Nat.ofDigits_cons]
    have : Nat.ofDigits 10 rest * 10 = 10 * Nat.ofDigits 10 rest := by ring
    omega

theorem natReprGo_digits (fuel : Nat) : ∀ (n : Nat) (acc : List Char), n < 10 ^ fuel → 0 < n →
    natReprGo fuel n acc = ((Nat.digits 10 n).reverse.map digitChar) ++ acc := by
  induction fuel with
  | zero => intro n acc hn h0; omega
  | succ f ih =>
    intro n acc hn h0
    rw [natReprGo]
    by_cases h10 : n < 10
    · simp only [if_pos h10]
      rw [Nat.digits_def' (by norm_num : 1 < 10) h0]
      have hdv : n / 10 = 0 := Nat.div_eq_of_lt h10
      rw [hdv]
      simp [Nat.mod_eq_of_lt h10]
    · simp only [if_neg h10]
      have hd : 0 < n / 10 := Nat.div_pos (by omega) (by norm_num)
      have hlt : n / 10 < 10 ^ f := by
        rw [Nat.div_lt_iff_lt_mul (by norm_num : 0 < 10)]
        rw [Nat.pow_succ] at hn
        omega
      rw [ih _ _ hlt hd]
      rw [Nat.digits_def' (by norm_num : 1 < 10) h0]
      simp

theorem natOfDigits_natRepr (n : Nat) : natOfDigits (natRepr n) = n := by
  rcases Nat.eq_zero_or_pos n with h0 | h0
  · subst h0; rfl
  · unfold natRepr
    have hbound : n < 10 ^ (n + 1) :=
      lt_of_lt_of_le (Nat.lt_pow_self (by norm_num) n)
        (Nat.pow_le_pow_right (by norm_num) (Nat.le_succ n))
    rw [natReprGo_digits (n + 1) n [] hbound h0]
    rw [List.append_nil]
    rw [natOfDigits_revmap _ (fun d hd => Nat.digits_lt_base (by norm_num) hd)]
    exact Nat.ofDigits_digits 10 n

theorem natRepr_digits_only (n : Nat) : ∀ c ∈ natRepr n, 48 ≤ c.toNat ∧ c.toNat ≤ 57 := by
  have go : ∀ fuel m acc, (∀ c ∈ acc, 48 ≤ c.toNat ∧ c.toNat ≤ 57) →
      ∀ c ∈ natReprGo fuel m acc, 48 ≤ c.toNat ∧ c.toNat ≤ 57 := by
    intro fuel
    induction fuel with
    | zero => intro m acc hacc; exact hacc
    | succ f ih =>
      intro m acc hacc c hc
      rw [natReprGo] at hc
      have hd : ∀ x ∈ digitChar (m % 10) :: acc, 48 ≤ x.toNat ∧ x.toNat ≤ 57 := by
        intro x hx
        rcases List.mem_cons.mp hx with hx | hx
        · subst hx
          have hlt : m % 10 < 10 := Nat.mod_lt _ (by norm_num)
          rw [digitChar_toNat _ hlt]
          omega
        · exact hacc x hx
      by_cases h10 : m < 10
      · rw [if_pos h10] at hc; exact hd c hc
      · rw [if_neg h10] at hc; exact ih _ _ hd c hc
  exact go (n + 1) n [] (by simp)

theorem natRepr_ne_nil (n : Nat) : natRepr n ≠ [] := by
  have go : ∀ fuel m (acc : List Char), acc ≠ [] → natReprGo fuel m acc ≠ [] := by
    intro fuel
    induction fuel with
    | zero => intro m acc hacc; exact hacc
    | succ f ih =>
      intro m acc hacc
      rw [natReprGo]
      by_cases h10 : m < 10
      · rw [if_pos h10]; simp
      · rw [if_neg h10]; exact ih _ _ (by simp)
  unfold natRepr
  rw [natReprGo]
  by_cases h10 : n < 10
  · rw [if_pos h10]; simp
  · rw [if_neg h10]; exact go n (n / 10) _ (by simp)


theorem natRepr_all_digits (n : Nat) : ∀ c ∈ natRepr n, isDigitChar c = true := by
  intro c hc
  have := natRepr_digits_only n c hc
  simp [isDigitChar]
  omega

theorem takeWhile_all {p : Char → Bool} (l : Str) (h : ∀ c ∈ l, p c = true) :
    l.takeWhile p = l := by
  induction l with
  | nil => rfl
  | cons c cs ih =>
    rw [List.takeWhile_cons, h c (by simp)]
    rw [ih (fun x hx => h x (List.mem_cons_of_mem c hx))]
    simp

theorem parseIntE_natRepr (n : Nat) : parseIntE (natRepr n) = some n := by
  unfold parseIntE
  rw [takeWhile_all _ (natRepr_all_digits n)]
  rw [if_neg (by simp [List.isEmpty_iff, natRepr_ne_nil])]
  rw [natOfDigits_natRepr]

theorem natRepr_tokenOk (n : Nat) : Sdp.tokenOk (natRepr n) := by
  refine ⟨natRepr_ne_nil n, ?_⟩
  intro c hc
  have := natRepr_digits_only n c hc
  refine ⟨?_, ?_, ?_⟩ <;> · intro hh; subst hh; simp at this <;> omega

theorem natRepr_no_space (n : Nat) : ' ' ∉ natRepr n := by
  intro hc
  have := natRepr_digits_only n _ hc
  simp at this

theorem natRepr_no_cr (n : Nat) : '\r' ∉ natRepr n := by
  intro hc
  have := natRepr_digits_only n _ hc
  simp at this

theorem groupLinesSession_skip (l : Str) (ls : List Str)
    (h : (str "m=").isPrefixOf l = false) :
    Sdp.groupLinesSession (l :: ls) =
      (l :: (Sdp.groupLinesSession ls).1, (Sdp.groupLinesSession ls).2) := by
  rw [Sdp.groupLinesSession]
  rw [if_neg (by simp [h])]

theorem groupLinesSession_mline (l : Str) (ls : List Str)
    (h : (str "m=").isPrefixOf l = true) :
    Sdp.groupLinesSession (l :: ls) = ([], l :: ls) := by
  rw [Sdp.groupLinesSession, if_pos h]

theorem mediaChunk_all (ls : List Str) (h : ∀ l ∈ ls, (str "m=").isPrefixOf l = false) :
    Sdp.mediaChunk ls = (ls, []) := by
  induction ls with
  | nil => rfl
  | cons l rest ih =>
    rw [Sdp.mediaChunk]
    rw [if_neg (by simp [h l (by simp)])]
    rw [ih (fun x hx => h x (List.mem_cons_of_mem l hx))]

theorem groupMediaF_nil (n : Nat) : Sdp.groupMediaF n [] = [] := by
  cases n <;> rfl

theorem groupMediaF_one (l : Str) (rest : List Str)
    (h : ∀ x ∈ rest, (str "m=").isPrefixOf x = false) :
    Sdp.groupMediaF (l :: rest).length (l :: rest) = [l :: rest] := by
  rw [show (l :: rest).length = rest.length + 1 from rfl]
  rw [Sdp.groupMediaF]
  rw [mediaChunk_all rest h]
  rw [groupMediaF_nil]

theorem foldlM_append_opt {α β : Type} (f : β → α → Option β) (b : β) (l1 l2 : List α) :
    List.foldlM f b (l1 ++ l2) =
      (List.foldlM f b l1).bind (fun b2 => List.foldlM f b2 l2) := by
  induction l1 generalizing b with
  | nil => simp [List.foldlM]
  | cons a l ih =>
    rw [List.cons_append]
    rw [show List.foldlM f b (a :: (l ++ l2)) = (f b a).bind (fun s => List.foldlM f s (l ++ l2))
      from rfl]
    rw [show List.foldlM f b (a :: l) = (f b a).bind (fun s => List.foldlM f s l) from rfl]
    cases f b a with
    | none => rfl
    | some b1 => simp only [Option.some_bind]; exact ih b1


theorem isPrefixOf_nil_left (o : Str) : List.isPrefixOf ([] : Str) o = true := by
  cases o <;> rfl

theorem isPrefixOf_cons₂ (a b : Char) (as bs : Str) :
    List.isPrefixOf (a :: as) (b :: bs) = (a == b && List.isPrefixOf as bs) := rfl

theorem psl_v (s : Sdp.SessionDescription) :
    Sdp.parseSessionLine s (str "v=0") = some { s with version := some 0 } := rfl

theorem psl_o (s : Sdp.SessionDescription) (o : Str) :
    Sdp.parseSessionLine s (str "o=" ++ o) = some { s with origin := some o } := by
  simp [Sdp.parseSessionLine, str, isPrefixOf_cons₂, isPrefixOf_nil_left]

theorem psl_s (s : Sdp.SessionDescription) :
    Sdp.parseSessionLine s (str "s=-") = some { s with name := str "-" } := rfl

theorem psl_t (s : Sdp.SessionDescription) :
    Sdp.parseSessionLine s (str "t=0 0") = some { s with time := str "0 0" } := rfl

theorem psl_extmap (s : Sdp.SessionDescription) :
    Sdp.parseSessionLine s (str "a=extmap-allow-mixed") =
      some { s with extMapAllowMixed := true } := rfl

theorem psl_msid (s : Sdp.SessionDescription) :
    Sdp.parseSessionLine s (str "a=msid-semantic:WMS *") =
      some { s with msidSemantic := s.msidSemantic ++ [⟨str "WMS", [str "*"]⟩] } := rfl

theorem psl_nil (s : Sdp.SessionDescription) : Sdp.parseSessionLine s [] = some s := rfl

theorem psl_group (s : Sdp.SessionDescription) (mid : Str) (h : ' ' ∉ mid) :
    Sdp.parseSessionLine s (str "a=group:BUNDLE " ++ mid) =
      some { s with group := s.group ++ [⟨str "BUNDLE", [mid]⟩] } := by
  have hb : splitOn1 ' ' ('B' :: 'U' :: 'N' :: 'D' :: 'L' :: 'E' :: ' ' :: mid) =
      [str "BUNDLE", mid] := by
    have h1 := splitOn1_token ' ' (str "BUNDLE") mid (by decide)
    rw [splitOn1_single ' ' mid h] at h1
    simpa [str] using h1
  simp [Sdp.parseSessionLine, Sdp.parseAttr, Sdp.divideChar, Sdp.parseGroup, str, hb]


theorem foldlM_cons_opt {α β : Type} (f : β → α → Option β) (b : β) (a : α) (l : List α) :
    List.foldlM f b (a :: l) = (f b a).bind (fun b2 => List.foldlM f b2 l) := rfl

theorem foldlM_nil_opt {α β : Type} (f : β → α → Option β) (b : β) :
    List.foldlM f b ([] : List α) = some b := rfl

theorem session_fold_bundle (o mid : Str) (hmid : ' ' ∉ mid) :
    List.foldlM Sdp.parseSessionLine ({} : Sdp.SessionDescription)
      [str "v=0", str "o=" ++ o, str "s=-", str "t=0 0",
       str "a=group:BUNDLE " ++ mid, str "a=extmap-allow-mixed",
       str "a=msid-semantic:WMS *"] =
      some { origin := some o, group := [⟨str "BUNDLE", [mid]⟩],
             msidSemantic := [⟨str "WMS", [str "*"]⟩] } := by
  rw [foldlM_cons_opt, psl_v, Option.some_bind]
  rw [foldlM_cons_opt, psl_o, Option.some_bind]
  rw [foldlM_cons_opt, psl_s, Option.some_bind]
  rw [foldlM_cons_opt, psl_t, Option.some_bind]
  rw [foldlM_cons_opt, psl_group _ _ hmid, Option.some_bind]
  rw [foldlM_cons_opt, psl_extmap, Option.some_bind]
  rw [foldlM_cons_opt, psl_msid, Option.some_bind]
  rw [foldlM_nil_opt]
  rfl

theorem session_fold_nobundle (o : Str) :
    List.foldlM Sdp.parseSessionLine ({} : Sdp.SessionDescription)
      [str "v=0", str "o=" ++ o, str "s=-", str "t=0 0",
       str "a=extmap-allow-mixed", str "a=msid-semantic:WMS *"] =
      some { origin := some o, msidSemantic := [⟨str "WMS", [str "*"]⟩] } := by
  rw [foldlM_cons_opt, psl_v, Option.some_bind]
  rw [foldlM_cons_opt, psl_o, Option.some_bind]
  rw [foldlM_cons_opt, psl_s, Option.some_bind]
  rw [foldlM_cons_opt, psl_t, Option.some_bind]
  rw [foldlM_cons_opt, psl_extmap, Option.some_bind]
  rw [foldlM_cons_opt, psl_msid, Option.some_bind]
  rw [foldlM_nil_opt]
  rfl

theorem session_fold_answer (o : Str) :
    List.foldlM Sdp.parseSessionLine ({} : Sdp.SessionDescription)
      [str "v=0", str "o=" ++ o, str "s=-", str "t=0 0",
       str "a=extmap-allow-mixed", str "a=msid-semantic:WMS *", []] =
      some { origin := some o, msidSemantic := [⟨str "WMS", [str "*"]⟩] } := by
  rw [foldlM_cons_opt, psl_v, Option.some_bind]
  rw [foldlM_cons_opt, psl_o, Option.some_bind]
  rw [foldlM_cons_opt, psl_s, Option.some_bind]
  rw [foldlM_cons_opt, psl_t, Option.some_bind]
  rw [foldlM_cons_opt, psl_extmap, Option.some_bind]
  rw [foldlM_cons_opt, psl_msid, Option.some_bind]
  rw [foldlM_cons_opt, psl_nil, Option.some_bind]
  rw [foldlM_nil_opt]
  rfl


theorem pml_nil (cm : Sdp.MediaDescription) : Sdp.parseMediaLine cm [] = some cm := rfl

theorem pml_c (cm : Sdp.MediaDescription) :
    Sdp.parseMediaLine cm (str "c=IN IP4 0.0.0.0") =
      some { cm with host := some (str "0.0.0.0") } := rfl

theorem pml_eoc (cm : Sdp.MediaDescription) :
    Sdp.parseMediaLine cm (str "a=end-of-candidates") =
      some { cm with iceCandidatesComplete := true } := rfl

theorem pml_iceopts (cm : Sdp.MediaDescription) :
    Sdp.parseMediaLine cm (str "a=ice-options:trickle") =
      some { cm with iceOptions := some (str "trickle") } := rfl

theorem pml_mms (cm : Sdp.MediaDescription) :
    Sdp.parseMediaLine cm (str "a=max-message-size:1200") =
      some { cm with sctpCapabilities := some ⟨some 1200⟩ } := rfl

theorem pml_ufrag (cm : Sdp.MediaDescription) (ip : Sdp.RTCIceParameters) (u : Str)
    (hip : cm.iceParams = some ip) :
    Sdp.parseMediaLine cm (str "a=ice-ufrag:" ++ u) =
      some { cm with iceParams := some { ip with usernameFragment := some u } } := by
  simp [Sdp.parseMediaLine, Sdp.parseAttr, Sdp.divideChar, str,
    isPrefixOf_cons₂, isPrefixOf_nil_left, hip]

theorem pml_pwd (cm : Sdp.MediaDescription) (ip : Sdp.RTCIceParameters) (u : Str)
    (hip : cm.iceParams = some ip) :
    Sdp.parseMediaLine cm (str "a=ice-pwd:" ++ u) =
      some { cm with iceParams := some { ip with password := some u } } := by
  simp [Sdp.parseMediaLine, Sdp.parseAttr, Sdp.divideChar, str,
    isPrefixOf_cons₂, isPrefixOf_nil_left, hip]

theorem pml_mid (cm : Sdp.MediaDescription) (mid : Str) :
    Sdp.parseMediaLine cm (str "a=mid:" ++ mid) =
      some { cm with rtpMuxId := some mid } := by
  simp [Sdp.parseMediaLine, Sdp.parseAttr, Sdp.divideChar, str,
    isPrefixOf_cons₂, isPrefixOf_nil_left]

theorem pml_setup (cm : Sdp.MediaDescription) (dp : Sdp.RTCDtlsParameters) (v : Str)
    (hdp : cm.dtlsParams = some dp) :
    Sdp.parseMediaLine cm (str "a=setup:" ++ v) =
      some { cm with dtlsParams := some { dp with role := Sdp.dtlsSetupRole (some v) } } := by
  simp [Sdp.parseMediaLine, Sdp.parseAttr, Sdp.divideChar, str,
    isPrefixOf_cons₂, isPrefixOf_nil_left, hdp]

theorem pml_fp (cm : Sdp.MediaDescription) (dp : Sdp.RTCDtlsParameters) (alg val : Str)
    (hdp : cm.dtlsParams = some dp) (ha : ' ' ∉ alg) (hv : ' ' ∉ val) :
    Sdp.parseMediaLine cm (str "a=fingerprint:" ++ alg ++ ' ' :: val) =
      some { cm with dtlsParams := some { dp with fingerprints := dp.fingerprints ++ [⟨some alg, some val⟩] } } := by
  have hsp : splitOn1 ' ' (alg ++ ' ' :: val) = [alg, val] := by
    rw [splitOn1_token ' ' alg val ha, splitOn1_single ' ' val hv]
  have hne : (alg ++ ' ' :: val).isEmpty = false := by
    cases alg <;> rfl
  simp [Sdp.parseMediaLine, Sdp.parseAttr, Sdp.divideChar, str,
    isPrefixOf_cons₂, isPrefixOf_nil_left, hdp, hsp, hne]

theorem pml_sctpport (cm : Sdp.MediaDescription) (n : Nat) :
    Sdp.parseMediaLine cm (str "a=sctp-port:" ++ natRepr n) =
      some { cm with sctpPort := some n } := by
  have hne : (natRepr n).isEmpty = false := by
    cases hh : natRepr n with
    | nil => exact absurd hh (natRepr_ne_nil n)
    | cons a as => rfl
  simp [Sdp.parseMediaLine, Sdp.parseAttr, Sdp.divideChar, str,
    isPrefixOf_cons₂, isPrefixOf_nil_left, hne, parseIntE_natRepr]


theorem tokenOk_no_space (t : Str) (h : Sdp.tokenOk t) : ' ' ∉ t :=
  fun hm => ((h.2 ' ' hm).2.2) rfl

theorem tokenOk_no_cr (t : Str) (h : Sdp.tokenOk t) : '\r' ∉ t :=
  fun hm => ((h.2 '\r' hm).1) rfl

theorem isEmpty_false_of_ne_nil (l : Str) (h : l ≠ []) : l.isEmpty = false := by
  cases l with
  | nil => exact absurd rfl h
  | cons a as => rfl


theorem bne_zero_true (n : Nat) (h : 0 < n) : (n != 0) = true := by
  simp [bne]
  omega

theorem candidateFromSdp_roundtrip (cp : Sdp.CandParams) (hok : Sdp.CandParamsOk cp) :
    Sdp.candidateFromSdp (Sdp.candidateToSdp (Sdp.buildCandidate cp)) =
      some (Sdp.buildCandidate cp) := by
  obtain ⟨f, comp, pr, prio, ipa, port, ty, ra, rp, tt⟩ := cp
  obtain ⟨hf, hpr, hip, hty, hra, hrp, htt⟩ := hok
  rcases ra with _ | a <;> rcases rp with _ | n <;> rcases tt with _ | t
  · have hA : Sdp.candidateToSdp (Sdp.buildCandidate ⟨f, comp, pr, prio, ipa, port, ty, none, none, none⟩) =
        List.intercalate [' ']
          [f, natRepr comp, pr, natRepr prio, ipa, natRepr port, str "typ", ty] := by
      simp [Sdp.candidateToSdp, Sdp.buildCandidate, Sdp.jsShow, Sdp.jsNumShow, Sdp.jsStrTruthy,
        Sdp.jsNumTruthy, str, List.intercalate, List.intersperse, List.append_assoc]
    have hB : splitOn1 ' ' (List.intercalate [' ']
        [f, natRepr comp, pr, natRepr prio, ipa, natRepr port, str "typ", ty]) =
        [f, natRepr comp, pr, natRepr prio, ipa, natRepr port, str "typ", ty] := by
      refine splitOn1_intercalate ' ' _ (by simp) ?_
      intro x hx
      fin_cases hx <;>
        first | decide | exact natRepr_no_space _ | exact tokenOk_no_space _ (by assumption)
    simp only [str] at hB
    rw [hA]
    simp [Sdp.candidateFromSdp, hB, Sdp.candidateOptsLoop, parseIntE_natRepr,
      Sdp.buildCandidate, str]
  · have hA : Sdp.candidateToSdp (Sdp.buildCandidate ⟨f, comp, pr, prio, ipa, port, ty, none, none, some t⟩) =
        List.intercalate [' ']
          [f, natRepr comp, pr, natRepr prio, ipa, natRepr port, str "typ", ty,
           str "tcptype", t] := by
      simp [Sdp.candidateToSdp, Sdp.buildCandidate, Sdp.jsShow, Sdp.jsNumShow, Sdp.jsStrTruthy,
        Sdp.jsNumTruthy, str, List.intercalate, List.intersperse, List.append_assoc,
        isEmpty_false_of_ne_nil t htt.1]
    have hB : splitOn1 ' ' (List.intercalate [' ']
        [f, natRepr comp, pr, natRepr prio, ipa, natRepr port, str "typ", ty,
         str "tcptype", t]) =
        [f, natRepr comp, pr, natRepr prio, ipa, natRepr port, str "typ", ty,
         str "tcptype", t] := by
      refine splitOn1_intercalate ' ' _ (by simp) ?_
      intro x hx
      fin_cases hx <;>
        first | decide | exact natRepr_no_space _ | exact tokenOk_no_space _ (by assumption)
    simp only [str] at hB
    rw [hA]
    simp [Sdp.candidateFromSdp, hB, Sdp.candidateOptsLoop, parseIntE_natRepr,
      Sdp.buildCandidate, str]
  · have hA : Sdp.candidateToSdp (Sdp.buildCandidate ⟨f, comp, pr, prio, ipa, port, ty, none, some n, none⟩) =
        List.intercalate [' ']
          [f, natRepr comp, pr, natRepr prio, ipa, natRepr port, str "typ", ty,
           str "rport", natRepr n] := by
      simp [Sdp.candidateToSdp, Sdp.buildCandidate, Sdp.jsShow, Sdp.jsNumShow, Sdp.jsStrTruthy,
        Sdp.jsNumTruthy, str, List.intercalate, List.intersperse, List.append_assoc,
        bne_zero_true n hrp]
    have hB : splitOn1 ' ' (List.intercalate [' ']
        [f, natRepr comp, pr, natRepr prio, ipa, natRepr port, str "typ", ty,
         str "rport", natRepr n]) =
        [f, natRepr comp, pr, natRepr prio, ipa, natRepr port, str "typ", ty,
         str "rport", natRepr n] := by
      refine splitOn1_intercalate ' ' _ (by simp) ?_
      intro x hx
      fin_cases hx <;>
        first | decide | exact natRepr_no_space _ | exact tokenOk_no_space _ (by assumption)
    simp only [str] at hB
    rw [hA]
    simp [Sdp.candidateFromSdp, hB, Sdp.candidateOptsLoop, parseIntE_natRepr,
      Sdp.buildCandidate, str]
  · have hA : Sdp.candidateToSdp (Sdp.buildCandidate ⟨f, comp, pr, prio, ipa, port, ty, none, some n, some t⟩) =
        List.intercalate [' ']
          [f, natRepr comp, pr, natRepr prio, ipa, natRepr port, str "typ", ty,
           str "rport", natRepr n, str "tcptype", t] := by
      simp [Sdp.candidateToSdp, Sdp.buildCandidate, Sdp.jsShow, Sdp.jsNumShow, Sdp.jsStrTruthy,
        Sdp.jsNumTruthy, str, List.intercalate, List.intersperse, List.append_assoc,
        bne_zero_true n hrp, isEmpty_false_of_ne_nil t htt.1]
    have hB : splitOn1 ' ' (List.intercalate [' ']
        [f, natRepr comp, pr, natRepr prio, ipa, natRepr port, str "typ", ty,
         str "rport", natRepr n, str "tcptype", t]) =
        [f, natRepr comp, pr, natRepr prio, ipa, natRepr port, str "typ", ty,
         str "rport", natRepr n, str "tcptype", t] := by
      refine splitOn1_intercalate ' ' _ (by simp) ?_
      intro x hx
      fin_cases hx <;>
        first | decide | exact natRepr_no_space _ | exact tokenOk_no_space _ (by assumption)
    simp only [str] at hB
    rw [hA]
    simp [Sdp.candidateFromSdp, hB, Sdp.candidateOptsLoop, parseIntE_natRepr,
      Sdp.buildCandidate, str]
  · have hA : Sdp.candidateToSdp (Sdp.buildCandidate ⟨f, comp, pr, prio, ipa, port, ty, some a, none, none⟩) =
        List.intercalate [' ']
          [f, natRepr comp, pr, natRepr prio, ipa, natRepr port, str "typ", ty,
           str "raddr", a] := by
      simp [Sdp.candidateToSdp, Sdp.buildCandidate, Sdp.jsShow, Sdp.jsNumShow, Sdp.jsStrTruthy,
        Sdp.jsNumTruthy, str, List.intercalate, List.intersperse, List.append_assoc,
        isEmpty_false_of_ne_nil a hra.1]
    have hB : splitOn1 ' ' (List.intercalate [' ']
        [f, natRepr comp, pr, natRepr prio, ipa, natRepr port, str "typ", ty,
         str "raddr", a]) =
        [f, natRepr comp, pr, natRepr prio, ipa, natRepr port, str "typ", ty,
         str "raddr", a] := by
      refine splitOn1_intercalate ' ' _ (by simp) ?_
      intro x hx
      fin_cases hx <;>
        first | decide | exact natRepr_no_space _ | exact tokenOk_no_space _ (by assumption)
    simp only [str] at hB
    rw [hA]
    simp [Sdp.candidateFromSdp, hB, Sdp.candidateOptsLoop, parseIntE_natRepr,
      Sdp.buildCandidate, str]
  · have hA : Sdp.candidateToSdp (Sdp.buildCandidate ⟨f, comp, pr, prio, ipa, port, ty, some a, none, some t⟩) =
        List.intercalate [' ']
          [f, natRepr comp, pr, natRepr prio, ipa, natRepr port, str "typ", ty,
           str "raddr", a, str "tcptype", t] := by
      simp [Sdp.candidateToSdp, Sdp.buildCandidate, Sdp.jsShow, Sdp.jsNumShow, Sdp.jsStrTruthy,
        Sdp.jsNumTruthy, str, List.intercalate, List.intersperse, List.append_assoc,
        isEmpty_false_of_ne_nil a hra.1, isEmpty_false_of_ne_nil t htt.1]
    have hB : splitOn1 ' ' (List.intercalate [' ']
        [f, natRepr comp, pr, natRepr prio, ipa, natRepr port, str "typ", ty,
         str "raddr", a, str "tcptype", t]) =
        [f, natRepr comp, pr, natRepr prio, ipa, natRepr port, str "typ", ty,
         str "raddr", a, str "tcptype", t] := by
      refine splitOn1_intercalate ' ' _ (by simp) ?_
      intro x hx
      fin_cases hx <;>
        first | decide | exact natRepr_no_space _ | exact tokenOk_no_space _ (by assumption)
    simp only [str] at hB
    rw [hA]
    simp [Sdp.candidateFromSdp, hB, Sdp.candidateOptsLoop, parseIntE_natRepr,
      Sdp.buildCandidate, str]
  · have hA : Sdp.candidateToSdp (Sdp.buildCandidate ⟨f, comp, pr, prio, ipa, port, ty, some a, some n, none⟩) =
        List.intercalate [' ']
          [f, natRepr comp, pr, natRepr prio, ipa, natRepr port, str "typ", ty,
           str "raddr", a, str "rport", natRepr n] := by
      simp [Sdp.candidateToSdp, Sdp.buildCandidate, Sdp.jsShow, Sdp.jsNumShow, Sdp.jsStrTruthy,
        Sdp.jsNumTruthy, str, List.intercalate, List.intersperse, List.append_assoc,
        isEmpty_false_of_ne_nil a hra.1, bne_zero_true n hrp]
    have hB : splitOn1 ' ' (List.intercalate [' ']
        [f, natRepr comp, pr, natRepr prio, ipa, natRepr port, str "typ", ty,
         str "raddr", a, str "rport", natRepr n]) =
        [f, natRepr comp, pr, natRepr prio, ipa, natRepr port, str "typ", ty,
         str "raddr", a, str "rport", natRepr n] := by
      refine splitOn1_intercalate ' ' _ (by simp) ?_
      intro x hx
      fin_cases hx <;>
        first | decide | exact natRepr_no_space _ | exact tokenOk_no_space _ (by assumption)
    simp only [str] at hB
    rw [hA]
    simp [Sdp.candidateFromSdp, hB, Sdp.candidateOptsLoop, parseIntE_natRepr,
      Sdp.buildCandidate, str]
  · have hA : Sdp.candidateToSdp (Sdp.buildCandidate ⟨f, comp, pr, prio, ipa, port, ty, some a, some n, some t⟩) =
        List.intercalate [' ']
          [f, natRepr comp, pr, natRepr prio, ipa, natRepr port, str "typ", ty,
           str "raddr", a, str "rport", natRepr n, str "tcptype", t] := by
      simp [Sdp.candidateToSdp, Sdp.buildCandidate, Sdp.jsShow, Sdp.jsNumShow, Sdp.jsStrTruthy,
        Sdp.jsNumTruthy, str, List.intercalate, List.intersperse, List.append_assoc,
        isEmpty_false_of_ne_nil a hra.1, bne_zero_true n hrp, isEmpty_false_of_ne_nil t htt.1]
    have hB : splitOn1 ' ' (List.intercalate [' ']
        [f, natRepr comp, pr, natRepr prio, ipa, natRepr port, str "typ", ty,
         str "raddr", a, str "rport", natRepr n, str "tcptype", t]) =
        [f, natRepr comp, pr, natRepr prio, ipa, natRepr port, str "typ", ty,
         str "raddr", a, str "rport", natRepr n, str "tcptype", t] := by
      refine splitOn1_intercalate ' ' _ (by simp) ?_
      intro x hx
      fin_cases hx <;>
        first | decide | exact natRepr_no_space _ | exact tokenOk_no_space _ (by assumption)
    simp only [str] at hB
    rw [hA]
    simp [Sdp.candidateFromSdp, hB, Sdp.candidateOptsLoop, parseIntE_natRepr,
      Sdp.buildCandidate, str]


theorem candidateToSdp_isEmpty (c : Sdp.IceCandidate) :
    (Sdp.candidateToSdp c).isEmpty = false := by
  unfold Sdp.candidateToSdp
  cases h : Sdp.jsShow c.foundation <;> rfl

theorem pml_cand (cm : Sdp.MediaDescription) (cp : Sdp.CandParams)
    (hok : Sdp.CandParamsOk cp) :
    Sdp.parseMediaLine cm (str "a=candidate:" ++ Sdp.candidateToSdp (Sdp.buildCandidate cp)) =
      some { cm with iceCandidates := cm.iceCandidates ++ [Sdp.buildCandidate cp] } := by
  have hrt := candidateFromSdp_roundtrip cp hok
  have hne := candidateToSdp_isEmpty (Sdp.buildCandidate cp)
  simp [Sdp.parseMediaLine, Sdp.parseAttr, Sdp.divideChar, str,
    isPrefixOf_cons₂, isPrefixOf_nil_left, hne, hrt]

theorem fold_cands (cands : List Sdp.CandParams) (hok : ∀ c ∈ cands, Sdp.CandParamsOk c) :
    ∀ cm : Sdp.MediaDescription, List.foldlM Sdp.parseMediaLine cm
      (cands.map (fun c => str "a=candidate:" ++ Sdp.candidateToSdp (Sdp.buildCandidate c))) =
      some { cm with iceCandidates := cm.iceCandidates ++ cands.map Sdp.buildCandidate } := by
  induction cands with
  | nil => intro cm; simp [foldlM_nil_opt]
  | cons c rest ih =>
    intro cm
    rw [List.map_cons, foldlM_cons_opt, pml_cand cm c (hok c (by simp)), Option.some_bind]
    rw [ih (fun x hx => hok x (List.mem_cons_of_mem c hx))]
    simp [List.append_assoc]

theorem fold_fps (fps : List (Str × Str))
    (hok : ∀ f ∈ fps, Sdp.tokenOk f.1 ∧ Sdp.tokenOk f.2) :
    ∀ (cm : Sdp.MediaDescription) (dp : Sdp.RTCDtlsParameters), cm.dtlsParams = some dp →
      List.foldlM Sdp.parseMediaLine cm
        (fps.map (fun f => str "a=fingerprint:" ++ f.1 ++ ' ' :: f.2)) =
      some { cm with dtlsParams := some { dp with fingerprints := dp.fingerprints ++ fps.map (fun f => ⟨some f.1, some f.2⟩) } } := by
  induction fps with
  | nil =>
    intro cm dp hdp
    simp only [List.map_nil, List.append_nil, foldlM_nil_opt]
    rw [← hdp]
  | cons fp rest ih =>
    intro cm dp hdp
    rw [List.map_cons, foldlM_cons_opt,
      pml_fp cm dp fp.1 fp.2 hdp
        (tokenOk_no_space _ (hok fp (by simp)).1)
        (tokenOk_no_space _ (hok fp (by simp)).2),
      Option.some_bind]
    rw [ih (fun x hx => hok x (List.mem_cons_of_mem fp hx)) _ _ rfl]
    simp [List.append_assoc]


theorem fold_eoc (b : Bool) (cm : Sdp.MediaDescription) :
    List.foldlM Sdp.parseMediaLine cm (if b then [str "a=end-of-candidates"] else []) =
      some { cm with iceCandidatesComplete := cm.iceCandidatesComplete || b } := by
  cases b
  · simp [foldlM_nil_opt]
  · rw [if_pos rfl, foldlM_cons_opt, pml_eoc, Option.some_bind, foldlM_nil_opt]
    simp

theorem media_fold (p : Sdp.OfferParams)
    (hcands : ∀ c ∈ p.candidates, Sdp.CandParamsOk c)
    (hfps : ∀ f ∈ p.fingerprints, Sdp.tokenOk f.1 ∧ Sdp.tokenOk f.2)
    (hrole : p.role = str "auto" ∨ p.role = str "client" ∨ p.role = str "server") :
    List.foldlM Sdp.parseMediaLine
      ({ kind := str "application", port := some 9, profile := str "UDP/DTLS/SCTP",
         fmt := [str "webrtc-datachannel"],
         dtlsParams := some ⟨[], none⟩,
         iceParams := some ⟨false, none, none⟩,
         iceOptions := none } : Sdp.MediaDescription)
      (str "c=IN IP4 0.0.0.0" ::
        (p.candidates.map (fun c => str "a=candidate:" ++ Sdp.candidateToSdp (Sdp.buildCandidate c)) ++
          ((if p.gatherComplete then [str "a=end-of-candidates"] else []) ++
            ((str "a=ice-ufrag:" ++ p.ufrag) ::
              ((str "a=ice-pwd:" ++ p.pwd) ::
                ((str "a=ice-options:trickle") ::
                  (p.fingerprints.map (fun f => str "a=fingerprint:" ++ f.1 ++ ' ' :: f.2) ++
                    ((str "a=setup:" ++ Sdp.jsShow (Sdp.dtlsRoleSetup (some p.role))) ::
                      ((str "a=mid:" ++ p.mid) ::
                        ((str "a=sctp-port:" ++ natRepr p.sctpPort) ::
                          ((str "a=max-message-size:1200") :: [([] : Str)]))))))))))) =
      some (Sdp.buildAppMedia p) := by
  rw [foldlM_cons_opt, pml_c, Option.some_bind]
  rw [foldlM_append_opt, fold_cands p.candidates hcands, Option.some_bind]
  rw [foldlM_append_opt, fold_eoc, Option.some_bind]
  rw [foldlM_cons_opt, pml_ufrag _ _ _ rfl, Option.some_bind]
  rw [foldlM_cons_opt, pml_pwd _ _ _ rfl, Option.some_bind]
  rw [foldlM_cons_opt, pml_iceopts, Option.some_bind]
  rw [foldlM_append_opt, fold_fps p.fingerprints hfps _ _ rfl, Option.some_bind]
  rw [foldlM_cons_opt, pml_setup _ _ _ rfl, Option.some_bind]
  rw [foldlM_cons_opt, pml_mid, Option.some_bind]
  rw [foldlM_cons_opt, pml_sctpport, Option.some_bind]
  rw [foldlM_cons_opt, pml_mms, Option.some_bind]
  rw [foldlM_cons_opt, pml_nil, Option.some_bind, foldlM_nil_opt]
  rcases hrole with hr | hr | hr <;>
    simp [Sdp.buildAppMedia, hr, Sdp.dtlsRoleSetup, Sdp.dtlsSetupRole, Sdp.jsShow, str]


theorem lineOk_no_cr (s : Str) (h : Sdp.lineOk s) : '\r' ∉ s :=
  fun hm => (h _ hm).1 rfl

theorem splitCRLF_term (ls : List Str) (hne : ls ≠ []) (h : ∀ l ∈ ls, '\r' ∉ l) :
    splitCRLF (List.intercalate crlf ls ++ crlf) = ls ++ [[]] := by
  have hb := splitCRLF_block ls [] hne h
  simpa using hb

theorem candidateToSdp_no_cr (cp : Sdp.CandParams) (hok : Sdp.CandParamsOk cp) :
    '\r' ∉ Sdp.candidateToSdp (Sdp.buildCandidate cp) := by
  obtain ⟨f, comp, pr, prio, ipa, port, ty, ra, rp, tt⟩ := cp
  obtain ⟨hf, hpr, hip, hty, hra, hrp, htt⟩ := hok
  rcases ra with _ | a <;> rcases rp with _ | n <;> rcases tt with _ | t
  · intro hm
    simp [Sdp.candidateToSdp, Sdp.buildCandidate, Sdp.jsShow, Sdp.jsNumShow, Sdp.jsStrTruthy,
      Sdp.jsNumTruthy, str, tokenOk_no_cr _ hf, tokenOk_no_cr _ hpr, tokenOk_no_cr _ hip,
      tokenOk_no_cr _ hty, natRepr_no_cr] at hm
  · intro hm
    simp [Sdp.candidateToSdp, Sdp.buildCandidate, Sdp.jsShow, Sdp.jsNumShow, Sdp.jsStrTruthy,
      Sdp.jsNumTruthy, str, tokenOk_no_cr _ hf, tokenOk_no_cr _ hpr, tokenOk_no_cr _ hip,
      tokenOk_no_cr _ hty, natRepr_no_cr, isEmpty_false_of_ne_nil t htt.1,
      tokenOk_no_cr _ htt] at hm
  · intro hm
    simp [Sdp.candidateToSdp, Sdp.buildCandidate, Sdp.jsShow, Sdp.jsNumShow, Sdp.jsStrTruthy,
      Sdp.jsNumTruthy, str, tokenOk_no_cr _ hf, tokenOk_no_cr _ hpr, tokenOk_no_cr _ hip,
      tokenOk_no_cr _ hty, natRepr_no_cr, bne_zero_true n hrp] at hm
  · intro hm
    simp [Sdp.candidateToSdp, Sdp.buildCandidate, Sdp.jsShow, Sdp.jsNumShow, Sdp.jsStrTruthy,
      Sdp.jsNumTruthy, str, tokenOk_no_cr _ hf, tokenOk_no_cr _ hpr, tokenOk_no_cr _ hip,
      tokenOk_no_cr _ hty, natRepr_no_cr, bne_zero_true n hrp,
      isEmpty_false_of_ne_nil t htt.1, tokenOk_no_cr _ htt] at hm
  · intro hm
    simp [Sdp.candidateToSdp, Sdp.buildCandidate, Sdp.jsShow, Sdp.jsNumShow, Sdp.jsStrTruthy,
      Sdp.jsNumTruthy, str, tokenOk_no_cr _ hf, tokenOk_no_cr _ hpr, tokenOk_no_cr _ hip,
      tokenOk_no_cr _ hty, natRepr_no_cr, isEmpty_false_of_ne_nil a hra.1,
      tokenOk_no_cr _ hra] at hm
  · intro hm
    simp [Sdp.candidateToSdp, Sdp.buildCandidate, Sdp.jsShow, Sdp.jsNumShow, Sdp.jsStrTruthy,
      Sdp.jsNumTruthy, str, tokenOk_no_cr _ hf, tokenOk_no_cr _ hpr, tokenOk_no_cr _ hip,
      tokenOk_no_cr _ hty, natRepr_no_cr, isEmpty_false_of_ne_nil a hra.1,
      tokenOk_no_cr _ hra, isEmpty_false_of_ne_nil t htt.1, tokenOk_no_cr _ htt] at hm
  · intro hm
    simp [Sdp.candidateToSdp, Sdp.buildCandidate, Sdp.jsShow, Sdp.jsNumShow, Sdp.jsStrTruthy,
      Sdp.jsNumTruthy, str, tokenOk_no_cr _ hf, tokenOk_no_cr _ hpr, tokenOk_no_cr _ hip,
      tokenOk_no_cr _ hty, natRepr_no_cr, isEmpty_false_of_ne_nil a hra.1,
      tokenOk_no_cr _ hra, bne_zero_true n hrp] at hm
  · intro hm
    simp [Sdp.candidateToSdp, Sdp.buildCandidate, Sdp.jsShow, Sdp.jsNumShow, Sdp.jsStrTruthy,
      Sdp.jsNumTruthy, str, tokenOk_no_cr _ hf, tokenOk_no_cr _ hpr, tokenOk_no_cr _ hip,
      tokenOk_no_cr _ hty, natRepr_no_cr, isEmpty_false_of_ne_nil a hra.1,
      tokenOk_no_cr _ hra, bne_zero_true n hrp, isEmpty_false_of_ne_nil t htt.1,
      tokenOk_no_cr _ htt] at hm


theorem mem_optList {b : Bool} {x l : Str} (h : l ∈ if b then [x] else ([] : List Str)) :
    l = x := by
  cases b <;> simp_all

theorem mediaLinesOf_eq (p : Sdp.OfferParams) (hu : p.ufrag ≠ []) (hw : p.pwd ≠ [])
    (hmid : p.mid ≠ []) (hport : 0 < p.sctpPort) :
    Sdp.mediaLinesOf (Sdp.buildAppMedia p) =
      str "m=application 9 UDP/DTLS/SCTP webrtc-datachannel" ::
        (str "c=IN IP4 0.0.0.0" ::
          (p.candidates.map (fun c => str "a=candidate:" ++ Sdp.candidateToSdp (Sdp.buildCandidate c)) ++
            ((if p.gatherComplete then [str "a=end-of-candidates"] else []) ++
              ((str "a=ice-ufrag:" ++ p.ufrag) ::
                ((str "a=ice-pwd:" ++ p.pwd) ::
                  ((str "a=ice-options:trickle") ::
                    (p.fingerprints.map (fun f => str "a=fingerprint:" ++ f.1 ++ ' ' :: f.2) ++
                      ((str "a=setup:" ++ Sdp.jsShow (Sdp.dtlsRoleSetup (some p.role))) ::
                        ((str "a=mid:" ++ p.mid) ::
                          ((str "a=sctp-port:" ++ natRepr p.sctpPort) ::
                            [str "a=max-message-size:1200"]))))))))))  := by
  have hipeq : Sdp.ipAddressToSdp (str "0.0.0.0") = str "IN IP4 0.0.0.0" := rfl
  have hcomp1 : ((fun c => str "a=candidate:" ++ Sdp.candidateToSdp c) ∘ Sdp.buildCandidate) =
      (fun c => str "a=candidate:" ++ Sdp.candidateToSdp (Sdp.buildCandidate c)) := rfl
  have hcomp2 : ((fun f : Sdp.RTCDtlsFingerprint =>
        str "a=fingerprint:" ++ Sdp.jsShow f.algorithm ++ ' ' :: Sdp.jsShow f.value) ∘
      (fun f : Str × Str => (⟨some f.1, some f.2⟩ : Sdp.RTCDtlsFingerprint))) =
      (fun f : Str × Str => str "a=fingerprint:" ++ f.1 ++ ' ' :: f.2) := rfl
  simp only [str] at hipeq
  simp only [Sdp.jsShow, str, List.cons_append, List.nil_append] at hcomp1 hcomp2
  simp [Sdp.mediaLinesOf, Sdp.buildAppMedia, Sdp.optLine, Sdp.jsStrTruthy, Sdp.jsShow,
    Sdp.jsNumShow, Sdp.jsNumTruthy, isEmpty_false_of_ne_nil _ hu, isEmpty_false_of_ne_nil _ hw,
    isEmpty_false_of_ne_nil _ hmid, bne_zero_true _ hport, List.map_map, str,
    hipeq, hcomp1, hcomp2, intercalate_single,
    (show natRepr 9 = str "9" from rfl), (show natRepr 1200 = str "1200" from rfl)]

theorem sessionLinesOf_offer (p : Sdp.OfferParams) :
    Sdp.sessionLinesOf (Sdp.buildOffer p) =
      str "v=0" :: (str "o=" ++ p.origin) :: str "s=-" :: str "t=0 0" ::
        ((if p.bundle then [str "a=group:BUNDLE " ++ p.mid] else []) ++
          [str "a=extmap-allow-mixed", str "a=msid-semantic:WMS *"]) := by
  cases hpb : p.bundle <;>
    simp [Sdp.sessionLinesOf, Sdp.buildOffer, Sdp.optLine, Sdp.jsStrTruthy, Sdp.jsShow,
      Sdp.jsNumShow, Sdp.groupStr, str, (show natRepr 0 = str "0" from rfl), hpb,
      intercalate_single]


theorem mlines_no_cr (p : Sdp.OfferParams)
    (hulok : Sdp.lineOk p.ufrag) (hwlok : Sdp.lineOk p.pwd) (hmid : Sdp.tokenOk p.mid)
    (hfps : ∀ f ∈ p.fingerprints, Sdp.tokenOk f.1 ∧ Sdp.tokenOk f.2)
    (hcands : ∀ c ∈ p.candidates, Sdp.CandParamsOk c)
    (hrole : p.role = str "auto" ∨ p.role = str "client" ∨ p.role = str "server") :
    ∀ l ∈ (str "m=application 9 UDP/DTLS/SCTP webrtc-datachannel" ::
        (str "c=IN IP4 0.0.0.0" ::
          (p.candidates.map (fun c => str "a=candidate:" ++ Sdp.candidateToSdp (Sdp.buildCandidate c)) ++
            ((if p.gatherComplete then [str "a=end-of-candidates"] else []) ++
              ((str "a=ice-ufrag:" ++ p.ufrag) ::
                ((str "a=ice-pwd:" ++ p.pwd) ::
                  ((str "a=ice-options:trickle") ::
                    (p.fingerprints.map (fun f => str "a=fingerprint:" ++ f.1 ++ ' ' :: f.2) ++
                      ((str "a=setup:" ++ Sdp.jsShow (Sdp.dtlsRoleSetup (some p.role))) ::
                        ((str "a=mid:" ++ p.mid) ::
                          ((str "a=sctp-port:" ++ natRepr p.sctpPort) ::
                            [str "a=max-message-size:1200"]))))))))))), '\r' ∉ l := by
  intro l hl
  simp only [List.mem_cons, List.mem_append, List.mem_map, List.not_mem_nil, or_false] at hl
  rcases hl with rfl | rfl | ⟨c, hc, rfl⟩ | hite | rfl | rfl | rfl | ⟨f, hf2, rfl⟩ | rfl | rfl | rfl | rfl
  · decide
  · decide
  · intro hm
    simp [str] at hm
    exact candidateToSdp_no_cr c (hcands c hc) hm
  · rw [mem_optList hite]
    decide
  · intro hm
    simp [str] at hm
    exact lineOk_no_cr _ hulok hm
  · intro hm
    simp [str] at hm
    exact lineOk_no_cr _ hwlok hm
  · decide
  · intro hm
    simp [str] at hm
    rcases hm with hm | hm
    · exact tokenOk_no_cr _ (hfps f hf2).1 hm
    · exact tokenOk_no_cr _ (hfps f hf2).2 hm
  · rcases hrole with hr | hr | hr <;> rw [hr] <;> decide
  · intro hm
    simp [str] at hm
    exact tokenOk_no_cr _ hmid hm
  · intro hm
    simp [str] at hm
    exact natRepr_no_cr _ hm
  · decide

theorem mrest_no_mline (p : Sdp.OfferParams) :
    ∀ l ∈ (str "c=IN IP4 0.0.0.0" ::
        (p.candidates.map (fun c => str "a=candidate:" ++ Sdp.candidateToSdp (Sdp.buildCandidate c)) ++
          ((if p.gatherComplete then [str "a=end-of-candidates"] else []) ++
            ((str "a=ice-ufrag:" ++ p.ufrag) ::
              ((str "a=ice-pwd:" ++ p.pwd) ::
                ((str "a=ice-options:trickle") ::
                  (p.fingerprints.map (fun f => str "a=fingerprint:" ++ f.1 ++ ' ' :: f.2) ++
                    ((str "a=setup:" ++ Sdp.jsShow (Sdp.dtlsRoleSetup (some p.role))) ::
                      ((str "a=mid:" ++ p.mid) ::
                        ((str "a=sctp-port:" ++ natRepr p.sctpPort) ::
                          ((str "a=max-message-size:1200") :: [([] : Str)])))))))))))
      , (str "m=").isPrefixOf l = false := by
  intro l hl
  simp only [List.mem_cons, List.mem_append, List.mem_map, List.not_mem_nil, or_false] at hl
  rcases hl with rfl | ⟨c, hc, rfl⟩ | hite | rfl | rfl | rfl | ⟨f, hf2, rfl⟩ | rfl | rfl | rfl | rfl | rfl
  · rfl
  · simp [str, isPrefixOf_cons₂]
  · rw [mem_optList hite]
    rfl
  · simp [str, isPrefixOf_cons₂]
  · simp [str, isPrefixOf_cons₂]
  · rfl
  · simp [str, isPrefixOf_cons₂]
  · simp [str, isPrefixOf_cons₂]
  · simp [str, isPrefixOf_cons₂]
  · simp [str, isPrefixOf_cons₂]
  · rfl
  · rfl


theorem pmg_offer (bundle : Option Sdp.GroupDescription) (s : Sdp.SessionDescription)
    (p : Sdp.OfferParams)
    (hsf : s.dtlsFingerprints = []) (hsr : s.dtlsRole = none) (hsl : s.iceLite = false)
    (hsu : s.iceUsernameFragment = none) (hsp2 : s.icePassword = none) (hso : s.iceOptions = none)
    (hu : p.ufrag ≠ []) (hw : p.pwd ≠ [])
    (hcands : ∀ c ∈ p.candidates, Sdp.CandParamsOk c)
    (hfps : ∀ f ∈ p.fingerprints, Sdp.tokenOk f.1 ∧ Sdp.tokenOk f.2)
    (hrole : p.role = str "auto" ∨ p.role = str "client" ∨ p.role = str "server") :
    Sdp.parseMediaGroup bundle s
      (str "m=application 9 UDP/DTLS/SCTP webrtc-datachannel" ::
        (str "c=IN IP4 0.0.0.0" ::
          (p.candidates.map (fun c => str "a=candidate:" ++ Sdp.candidateToSdp (Sdp.buildCandidate c)) ++
            ((if p.gatherComplete then [str "a=end-of-candidates"] else []) ++
              ((str "a=ice-ufrag:" ++ p.ufrag) ::
                ((str "a=ice-pwd:" ++ p.pwd) ::
                  ((str "a=ice-options:trickle") ::
                    (p.fingerprints.map (fun f => str "a=fingerprint:" ++ f.1 ++ ' ' :: f.2) ++
                      ((str "a=setup:" ++ Sdp.jsShow (Sdp.dtlsRoleSetup (some p.role))) ::
                        ((str "a=mid:" ++ p.mid) ::
                          ((str "a=sctp-port:" ++ natRepr p.sctpPort) ::
                            ((str "a=max-message-size:1200") :: [([] : Str)])))))))))))) =
      some { s with media := s.media ++ [Sdp.buildAppMedia p] } := by
  have hmf := media_fold p hcands hfps hrole
  have hrne : p.role.isEmpty = false := by
    rcases hrole with hr | hr | hr <;> rw [hr] <;> rfl
  simp only [Sdp.parseMediaGroup,
    (show Sdp.mLineParse (str "m=application 9 UDP/DTLS/SCTP webrtc-datachannel") =
      some (str "application", str "9", str "UDP/DTLS/SCTP", str "webrtc-datachannel") from rfl),
    hsf, hsr, hsl, hsu, hsp2, hso,
    (show parseIntE (str "9") = some 9 from rfl),
    (show splitOn1 ' ' (str "webrtc-datachannel") = [str "webrtc-datachannel"] from rfl)]
  rw [if_neg (show ¬(str "application" = str "audio" ∨ str "application" = str "video") from
    by simp [str])]
  rw [hmf]
  simp [Sdp.buildAppMedia, Sdp.jsStrTruthy, isEmpty_false_of_ne_nil _ hu,
    isEmpty_false_of_ne_nil _ hw, hrne]


theorem parse_buildOffer (p : Sdp.OfferParams) (hok : Sdp.OfferParamsOk p) :
    Sdp.parse (Sdp.sdpStr (Sdp.buildOffer p)) = some { Sdp.buildOffer p with type := none } := by
  obtain ⟨ho, hmid, hu, hulok, hw, hwlok, hfps, hrole, hcands, hport⟩ := hok
  have hml := mediaLinesOf_eq p hu hw hmid.1 hport
  have hcr_m := mlines_no_cr p hulok hwlok hmid hfps hcands hrole
  have hpmg_rest := mrest_no_mline p
  simp only [List.cons_append, List.nil_append, List.append_assoc] at hpmg_rest
  have hsdp : Sdp.sdpStr (Sdp.buildOffer p) =
      List.intercalate crlf (str "v=0" :: (str "o=" ++ p.origin) :: str "s=-" :: str "t=0 0" ::
        ((if p.bundle then [str "a=group:BUNDLE " ++ p.mid] else []) ++
          [str "a=extmap-allow-mixed", str "a=msid-semantic:WMS *"])) ++ crlf ++
        (List.intercalate crlf (str "m=application 9 UDP/DTLS/SCTP webrtc-datachannel" ::
        (str "c=IN IP4 0.0.0.0" ::
          (p.candidates.map (fun c => str "a=candidate:" ++ Sdp.candidateToSdp (Sdp.buildCandidate c)) ++
            ((if p.gatherComplete then [str "a=end-of-candidates"] else []) ++
              ((str "a=ice-ufrag:" ++ p.ufrag) ::
                ((str "a=ice-pwd:" ++ p.pwd) ::
                  ((str "a=ice-options:trickle") ::
                    (p.fingerprints.map (fun f => str "a=fingerprint:" ++ f.1 ++ ' ' :: f.2) ++
                      ((str "a=setup:" ++ Sdp.jsShow (Sdp.dtlsRoleSetup (some p.role))) ::
                        ((str "a=mid:" ++ p.mid) ::
                          ((str "a=sctp-port:" ++ natRepr p.sctpPort) ::
                            [str "a=max-message-size:1200"]))))))))))) ++ crlf) := by
    simp only [Sdp.sdpStr]
    rw [sessionLinesOf_offer]
    rw [show (Sdp.buildOffer p).media = [Sdp.buildAppMedia p] from rfl]
    simp only [List.map_cons, List.map_nil, List.flatten_cons, List.flatten_nil, List.append_nil]
    simp only [Sdp.mediaStr]
    rw [hml]
  have hcr_s : ∀ l ∈ (str "v=0" :: (str "o=" ++ p.origin) :: str "s=-" :: str "t=0 0" ::
        ((if p.bundle then [str "a=group:BUNDLE " ++ p.mid] else []) ++
          [str "a=extmap-allow-mixed", str "a=msid-semantic:WMS *"])), '\r' ∉ l := by
    intro l hl
    simp only [List.mem_cons, List.mem_append, List.not_mem_nil, or_false] at hl
    rcases hl with rfl | rfl | rfl | rfl | hite | rfl | rfl
    · decide
    · intro hm
      simp [str] at hm
      exact lineOk_no_cr _ ho hm
    · decide
    · decide
    · rw [mem_optList hite]
      intro hm
      simp [str] at hm
      exact tokenOk_no_cr _ hmid hm
    · decide
    · decide
  have hsplit : splitCRLF (Sdp.sdpStr (Sdp.buildOffer p)) =
      (str "v=0" :: (str "o=" ++ p.origin) :: str "s=-" :: str "t=0 0" ::
        ((if p.bundle then [str "a=group:BUNDLE " ++ p.mid] else []) ++
          [str "a=extmap-allow-mixed", str "a=msid-semantic:WMS *"])) ++ ((str "m=application 9 UDP/DTLS/SCTP webrtc-datachannel" ::
        (str "c=IN IP4 0.0.0.0" ::
          (p.candidates.map (fun c => str "a=candidate:" ++ Sdp.candidateToSdp (Sdp.buildCandidate c)) ++
            ((if p.gatherComplete then [str "a=end-of-candidates"] else []) ++
              ((str "a=ice-ufrag:" ++ p.ufrag) ::
                ((str "a=ice-pwd:" ++ p.pwd) ::
                  ((str "a=ice-options:trickle") ::
                    (p.fingerprints.map (fun f => str "a=fingerprint:" ++ f.1 ++ ' ' :: f.2) ++
                      ((str "a=setup:" ++ Sdp.jsShow (Sdp.dtlsRoleSetup (some p.role))) ::
                        ((str "a=mid:" ++ p.mid) ::
                          ((str "a=sctp-port:" ++ natRepr p.sctpPort) ::
                            [str "a=max-message-size:1200"]))))))))))) ++ [[]]) := by
    rw [hsdp, splitCRLF_block _ _ (by simp) hcr_s, splitCRLF_term _ (by simp) hcr_m]
  by_cases hpb : p.bundle = true
  · simp only [hpb, eq_self_iff_true, if_true] at hsplit
    simp only [Sdp.parse]
    rw [hsplit]
    rw [if_neg (by simp [List.length_append] <;> omega)]
    simp only [List.cons_append, List.nil_append, List.append_assoc]
    rw [groupLinesSession_skip (str "v=0") _ (by rfl)]
    rw [groupLinesSession_skip (str "o=" ++ p.origin) _ (by simp [str, isPrefixOf_cons₂])]
    rw [groupLinesSession_skip (str "s=-") _ (by rfl)]
    rw [groupLinesSession_skip (str "t=0 0") _ (by rfl)]
    rw [groupLinesSession_skip (str "a=group:BUNDLE " ++ p.mid) _ (by simp [str, isPrefixOf_cons₂])]
    rw [groupLinesSession_skip (str "a=extmap-allow-mixed") _ (by rfl)]
    rw [groupLinesSession_skip (str "a=msid-semantic:WMS *") _ (by rfl)]
    rw [groupLinesSession_mline (str "m=application 9 UDP/DTLS/SCTP webrtc-datachannel") _ (by rfl)]
    dsimp only
    rw [session_fold_bundle p.origin p.mid (tokenOk_no_space _ hmid)]
    dsimp only
    rw [groupMediaF_one _ _ hpmg_rest]
    rw [foldlM_cons_opt]
    have hpmg := pmg_offer
      (List.find? (fun g => g.semantic = str "BUNDLE")
        ([⟨str "BUNDLE", [p.mid]⟩] : List Sdp.GroupDescription))
      ({ origin := some p.origin, group := [⟨str "BUNDLE", [p.mid]⟩],
         msidSemantic := [⟨str "WMS", [str "*"]⟩] } : Sdp.SessionDescription)
      p rfl rfl rfl rfl rfl rfl hu hw hcands hfps hrole
    simp only [List.cons_append, List.nil_append, List.append_assoc] at hpmg
    rw [hpmg]
    rw [Option.some_bind, foldlM_nil_opt]
    simp [Sdp.buildOffer, hpb]
  · simp only [hpb, Bool.false_eq_true, if_false, List.nil_append] at hsplit
    simp only [Sdp.parse]
    rw [hsplit]
    rw [if_neg (by simp [List.length_append] <;> omega)]
    simp only [List.cons_append, List.nil_append, List.append_assoc]
    rw [groupLinesSession_skip (str "v=0") _ (by rfl)]
    rw [groupLinesSession_skip (str "o=" ++ p.origin) _ (by simp [str, isPrefixOf_cons₂])]
    rw [groupLinesSession_skip (str "s=-") _ (by rfl)]
    rw [groupLinesSession_skip (str "t=0 0") _ (by rfl)]
    rw [groupLinesSession_skip (str "a=extmap-allow-mixed") _ (by rfl)]
    rw [groupLinesSession_skip (str "a=msid-semantic:WMS *") _ (by rfl)]
    rw [groupLinesSession_mline (str "m=application 9 UDP/DTLS/SCTP webrtc-datachannel") _ (by rfl)]
    dsimp only
    rw [session_fold_nobundle p.origin]
    dsimp only
    rw [groupMediaF_one _ _ hpmg_rest]
    rw [foldlM_cons_opt]
    have hpmg := pmg_offer
      (List.find? (fun g => g.semantic = str "BUNDLE") ([] : List Sdp.GroupDescription))
      ({ origin := some p.origin,
         msidSemantic := [⟨str "WMS", [str "*"]⟩] } : Sdp.SessionDescription)
      p rfl rfl rfl rfl rfl rfl hu hw hcands hfps hrole
    simp only [List.cons_append, List.nil_append, List.append_assoc] at hpmg
    rw [hpmg]
    rw [Option.some_bind, foldlM_nil_opt]
    simp [Sdp.buildOffer, hpb]


theorem parse_buildAnswer (o : Str) (ho : Sdp.lineOk o) :
    Sdp.parse (Sdp.sdpStr (Sdp.buildAnswer o)) = some { Sdp.buildAnswer o with type := none } := by
  have hsl : Sdp.sessionLinesOf (Sdp.buildAnswer o) =
      [str "v=0", str "o=" ++ o, str "s=-", str "t=0 0",
       str "a=extmap-allow-mixed", str "a=msid-semantic:WMS *"] := by
    simp [Sdp.sessionLinesOf, Sdp.buildAnswer, Sdp.optLine, Sdp.jsStrTruthy, Sdp.jsShow,
      Sdp.jsNumShow, Sdp.groupStr, str, (show natRepr 0 = str "0" from rfl), intercalate_single]
  have hsdp : Sdp.sdpStr (Sdp.buildAnswer o) =
      List.intercalate crlf [str "v=0", str "o=" ++ o, str "s=-", str "t=0 0",
        str "a=extmap-allow-mixed", str "a=msid-semantic:WMS *"] ++ crlf := by
    simp only [Sdp.sdpStr]
    rw [hsl]
    rw [show (Sdp.buildAnswer o).media = [] from rfl]
    simp
  have hcr : ∀ l ∈ [str "v=0", str "o=" ++ o, str "s=-", str "t=0 0",
      str "a=extmap-allow-mixed", str "a=msid-semantic:WMS *"], '\r' ∉ l := by
    intro l hl
    simp only [List.mem_cons, List.not_mem_nil, or_false] at hl
    rcases hl with rfl | rfl | rfl | rfl | rfl | rfl
    · decide
    · intro hm
      simp [str] at hm
      exact lineOk_no_cr _ ho hm
    · decide
    · decide
    · decide
    · decide
  have hsplit : splitCRLF (Sdp.sdpStr (Sdp.buildAnswer o)) =
      [str "v=0", str "o=" ++ o, str "s=-", str "t=0 0",
       str "a=extmap-allow-mixed", str "a=msid-semantic:WMS *"] ++ [[]] := by
    rw [hsdp]
    exact splitCRLF_term _ (by simp) hcr
  simp only [Sdp.parse]
  rw [hsplit]
  rw [if_neg (by simp)]
  simp only [List.cons_append, List.nil_append]
  rw [groupLinesSession_skip (str "v=0") _ (by rfl)]
  rw [groupLinesSession_skip (str "o=" ++ o) _ (by simp [str, isPrefixOf_cons₂])]
  rw [groupLinesSession_skip (str "s=-") _ (by rfl)]
  rw [groupLinesSession_skip (str "t=0 0") _ (by rfl)]
  rw [groupLinesSession_skip (str "a=extmap-allow-mixed") _ (by rfl)]
  rw [groupLinesSession_skip (str "a=msid-semantic:WMS *") _ (by rfl)]
  rw [groupLinesSession_skip ([] : Str) _ (by rfl)]
  rw [show Sdp.groupLinesSession ([] : List Str) = ([], []) from rfl]
  dsimp only
  rw [session_fold_answer o]
  dsimp only
  simp [Sdp.buildAnswer, Sdp.groupMediaF, foldlM_nil_opt]



theorem sdpStr_set_type (d : Sdp.SessionDescription) (t : Option Sdp.SdpType) :
    Sdp.sdpStr { d with type := t } = Sdp.sdpStr d := by
  cases d
  rfl

/-! ## Claim theorems -/

/-- Claim C1, counterexample: the association does emit SACK chunks.  From
an established state, processing one inbound DATA packet with the correct
verification tag serializes a `SackChunk` and hands it to
`transport.send`, contradicting "no SackChunk is ever serialized and
passed to transport.send". -/
theorem C1_counterexample :
    (Sctp.handleData exHmac 0 exEst 99 (.data ⟨3, 2, 7, 0, 53, [1, 2, 3]⟩)).map
        (fun r => r.2.packets.map Sctp.Packet.chunk) =
      some [.sack 2 4915200 [] []] := by decide

/-- Claim C1 (amended): the SCTP association does emit SACKs — every
inbound DATA chunk processed by `handleData` with the correct verification
tag causes exactly one SACK chunk to be serialized and passed to
`transport.send` — while every SACK chunk received from the peer is
ignored: with no SACK pending it causes no state change and no outbound
packet. -/
theorem C1_sack_behavior (hmac : List Nat → List Nat) (now : ℚ) (st : Sctp.SctpState)
    (d : Sctp.DataChunkFields) (cum : Nat) (arwnd : Int) (gaps : List (Int × Int))
    (dups : List Nat) (rp l : Nat)
    (hrp : st.remotePort = some rp) (hconn : st.connState ≠ .closed)
    (hlrt : st.lastReceivedTsn = some l) :
    (∃ st2 out sackCum sackGaps sackDups,
      Sctp.handleData hmac now st st.localVerificationTag (.data d) = some (st2, out) ∧
      out.packets = [⟨st.localPort, rp, st.remoteVerificationTag,
        .sack sackCum (max 0 st.advertisedRwnd) sackGaps sackDups⟩]) ∧
    (st.sackNeeded = false →
      Sctp.handleData hmac now st st.localVerificationTag (.sack cum arwnd gaps dups) =
        some (st, {})) := by
  constructor
  · obtain ⟨c, g, h⟩ := Sctp.handleData_data_shape hmac now st d rp l hrp hconn hlrt
    exact ⟨_, _, _, _, _, h, rfl⟩
  · intro hsn
    simp [Sctp.handleData, Sctp.receiveChunk, hsn]

/-- Claim C1 witness: concrete instance of the amended claim. -/
theorem C1_sack_behavior_witness :
    (∃ st2 out sackCum sackGaps sackDups,
      Sctp.handleData exHmac 0 exEst exEst.localVerificationTag (.data ⟨3, 2, 7, 0, 53, [1, 2, 3]⟩) =
        some (st2, out) ∧
      out.packets = [⟨exEst.localPort, 5000, exEst.remoteVerificationTag,
        .sack sackCum (max 0 exEst.advertisedRwnd) sackGaps sackDups⟩]) ∧
    (exEst.sackNeeded = false →
      Sctp.handleData exHmac 0 exEst exEst.localVerificationTag (.sack 5 0 [] []) =
        some (exEst, {})) :=
  C1_sack_behavior exHmac 0 exEst ⟨3, 2, 7, 0, 53, [1, 2, 3]⟩ 5 0 [] [] 5000 1
    (by decide) (by decide) (by decide)

/-- Claim C2, counterexample: `SCTP.send` performs no payload-size check.
A 1201-byte payload (strictly larger than `USERDATA_MAX_LENGTH = 1200`)
does not fail with payload-too-large: the call succeeds and one packet is
handed to the transport. -/
theorem C2_counterexample :
    Sctp.USERDATA_MAX_LENGTH < (List.replicate 1201 (0 : Nat)).length ∧
    Sctp.send exEst 3 53 (List.replicate 1201 0) {} ≠ none ∧
    (Sctp.send exEst 3 53 (List.replicate 1201 0) {}).map (fun r => r.2.length) = some 1 := by
  refine ⟨by decide, ?_, ?_⟩ <;>
    simp [Sctp.send, Sctp.sendChunk, exEst, Sctp.lookupSeq]

/-- Claim C2 (amended): `SCTP.send` applies no payload-size limit at all —
for every payload, of any length (1200 bytes, 1201 bytes, or larger), the
call succeeds and transmits the entire payload in a single DATA-chunk
packet; no payload-too-large error exists on this path
(`USERDATA_MAX_LENGTH` is only advertised through `getCapabilities`). -/
theorem C2_send_unchecked (st : Sctp.SctpState) (sid pp : Nat) (ud : List Nat)
    (opts : Sctp.SendOptions) (rp : Nat)
    (hrp : st.remotePort = some rp) (hconn : st.connState ≠ .closed) :
    ∃ st2 flags ssn,
      Sctp.send st sid pp ud opts = some (st2,
        [⟨st.localPort, rp, st.remoteVerificationTag,
          .data ⟨flags, st.localTsn, sid, ssn, pp, ud⟩⟩]) :=
  ⟨_, _, _, Sctp.send_shape st sid pp ud opts rp hrp hconn⟩

/-- Claim C2 witness: payloads of exactly 1200 and of 1201 bytes both
succeed and are transmitted whole. -/
theorem C2_send_unchecked_witness :
    (∃ st2 flags ssn,
      Sctp.send exEst 3 53 (List.replicate 1200 0) {} = some (st2,
        [⟨exEst.localPort, 5000, exEst.remoteVerificationTag,
          .data ⟨flags, exEst.localTsn, 3, ssn, 53, List.replicate 1200 0⟩⟩])) ∧
    (∃ st2 flags ssn,
      Sctp.send exEst 3 53 (List.replicate 1201 0) {} = some (st2,
        [⟨exEst.localPort, 5000, exEst.remoteVerificationTag,
          .data ⟨flags, exEst.localTsn, 3, ssn, 53, List.replicate 1201 0⟩⟩])) :=
  ⟨C2_send_unchecked exEst 3 53 (List.replicate 1200 0) {} 5000 (by decide) (by decide),
   C2_send_unchecked exEst 3 53 (List.replicate 1201 0) {} 5000 (by decide) (by decide)⟩

/-- Claim C3: the code contradicts the cumulative-TSN invariant.  With
`last-received-tsn = 1` and TSN 10 already received as mis-ordered,
processing an inbound DATA chunk with TSN 2 must advance
`last-received-tsn` to 2 (every value in the interval `(1, 2]` has been
received), but the code leaves it at 1: `[...misOrdered].sort()` sorts
numbers by their decimal string rendering, so the walk starts at 10
instead of 2 and stops immediately. -/
theorem C3_lastReceivedTsn_sort_bug :
    ((Sctp.receiveDataChunk (Sctp.receiveDataChunk exEst ⟨3, 10, 7, 0, 53, []⟩).1
        ⟨3, 2, 7, 0, 53, []⟩).1).lastReceivedTsn = some 1 ∧
    specLastReceivedTsn 1 [10, 2] = 2 ∧
    jsSortNats [10, 2] = [10, 2] := by decide

/-- Claim C4, counterexample: not every cookie-validation failure emits an
ERROR chunk.  A 24-byte cookie whose trailing 20 bytes do not match the
HMAC of its first 4 bytes is dropped silently — no ERROR chunk, no state
change — contradicting "every validation failure emits an ERROR chunk
carrying StaleCookieError". -/
theorem C4_counterexample :
    Sctp.receiveCookieEcho exHmac 1000 exSrv (List.replicate 24 1) = some (exSrv, {}) ∧
    (List.replicate 24 1).length = Sctp.COOKIE_LENGTH ∧
    (List.replicate 24 1).drop 4 ≠ exHmac ((List.replicate 24 1).take 4) ∧
    exSrv.associationState ≠ .ESTABLISHED := by
  refine ⟨?_, by decide, by decide, by decide⟩
  simp [Sctp.receiveCookieEcho, exSrv, exEst, Sctp.COOKIE_LENGTH, exHmac]

/-- Claim C4 (amended): server-side COOKIE_ECHO validation accepts a
cookie iff it is 24 bytes, its last 20 bytes equal the HMAC of its first
4 bytes, and its timestamp lies in `[now − 60, now]` (exactly `now − 60`
accepted, `now − 61` rejected); a length or HMAC failure is dropped
silently (no ERROR chunk, no state change), while a cookie failing only
the timestamp window is answered with an ERROR chunk carrying
`StaleCookieError` and the association does not reach ESTABLISHED; only a
fully valid cookie is answered with COOKIE_ACK and moves the association
to ESTABLISHED. -/
theorem C4_cookie_validation (hmac : List Nat → List Nat) (now : ℚ)
    (st : Sctp.SctpState) (body : List Nat) (rp : Nat)
    (hsrv : st.isServer = true) (hrp : st.remotePort = some rp)
    (hconn : st.connState ≠ .closed) (hest : st.associationState ≠ .ESTABLISHED) :
    (body.length ≠ Sctp.COOKIE_LENGTH ∨ body.drop 4 ≠ hmac (body.take 4) →
      Sctp.receiveCookieEcho hmac now st body = some (st, {}) ∧
      st.associationState ≠ .ESTABLISHED) ∧
    (body.length = Sctp.COOKIE_LENGTH → body.drop 4 = hmac (body.take 4) →
      ((Sctp.unpackU32BE body : ℚ) < now - 60 ∨ (Sctp.unpackU32BE body : ℚ) > now →
        Sctp.receiveCookieEcho hmac now st body = some (st,
          { packets := [⟨st.localPort, rp, st.remoteVerificationTag,
              .error [(Sctp.staleCookieErrorCode, List.replicate 8 0)]⟩] }) ∧
        st.associationState ≠ .ESTABLISHED) ∧
      (now - 60 ≤ (Sctp.unpackU32BE body : ℚ) → (Sctp.unpackU32BE body : ℚ) ≤ now →
        Sctp.receiveCookieEcho hmac now st body =
          some (Sctp.setState st .ESTABLISHED,
            { packets := [⟨st.localPort, rp, st.remoteVerificationTag, .cookieAck⟩] }) ∧
        (Sctp.setState st .ESTABLISHED).associationState = .ESTABLISHED)) := by
  refine ⟨fun hbad => ⟨?_, hest⟩, fun hlen hdig => ⟨fun hstale => ⟨?_, hest⟩, fun hlo hhi => ⟨?_, ?_⟩⟩⟩
  · simp only [Sctp.receiveCookieEcho, hsrv, Bool.not_true, Bool.false_eq_true, if_false]
    rw [if_pos hbad]
  · simp only [Sctp.receiveCookieEcho, hsrv, Bool.not_true, Bool.false_eq_true, if_false]
    rw [if_neg (by simp [hlen, hdig]), if_pos (by exact_mod_cast hstale),
      Sctp.sendChunk_shape st _ rp hrp hconn]
  · simp only [Sctp.receiveCookieEcho, hsrv, Bool.not_true, Bool.false_eq_true, if_false]
    rw [if_neg (by simp [hlen, hdig]),
      if_neg (by push_neg; exact ⟨by exact_mod_cast hlo, by exact_mod_cast hhi⟩),
      Sctp.sendChunk_shape st _ rp hrp hconn]
  · simp [Sctp.setState, Sctp.setConnectionState]

/-- Claim C4 witness: with `now = 1000`, a valid cookie stamped 940
(exactly `now − 60`) is accepted and establishes the association, while
one stamped 939 (`now − 61`) is rejected with a StaleCookieError ERROR
chunk. -/
theorem C4_cookie_validation_witness :
    (Sctp.receiveCookieEcho exHmac 1000 exSrv
        ([0, 0, 3, 172] ++ List.replicate 20 0) =
      some (Sctp.setState exSrv .ESTABLISHED,
        { packets := [⟨exSrv.localPort, 5000, exSrv.remoteVerificationTag, .cookieAck⟩] }) ∧
      (Sctp.setState exSrv .ESTABLISHED).associationState = .ESTABLISHED) ∧
    (Sctp.receiveCookieEcho exHmac 1000 exSrv
        ([0, 0, 3, 171] ++ List.replicate 20 0) =
      some (exSrv,
        { packets := [⟨exSrv.localPort, 5000, exSrv.remoteVerificationTag,
            .error [(Sctp.staleCookieErrorCode, List.replicate 8 0)]⟩] }) ∧
      exSrv.associationState ≠ .ESTABLISHED) := by
  constructor
  · exact (C4_cookie_validation exHmac 1000 exSrv ([0, 0, 3, 172] ++ List.replicate 20 0) 5000
      (by decide) (by decide) (by decide) (by decide)).2 (by decide) (by decide) |>.2
      (by norm_num [Sctp.unpackU32BE]) (by norm_num [Sctp.unpackU32BE])
  · exact (C4_cookie_validation exHmac 1000 exSrv ([0, 0, 3, 171] ++ List.replicate 20 0) 5000
      (by decide) (by decide) (by decide) (by decide)).2 (by decide) (by decide) |>.1
      (Or.inl (by norm_num [Sctp.unpackU32BE]))

/-- Claim C6: every successful `SCTP.send` emits one packet containing a
single DATA chunk with both fragment flags set, the UNORDERED flag iff
the send is unordered, TSN equal to the pre-call local TSN (which is then
incremented modulo 2³², wrapping 2³² − 1 to 0), and stream sequence number
0 when unordered, otherwise the per-stream counter, which advances
modulo 2¹⁶. -/
theorem C6_data_chunk_construction (st : Sctp.SctpState) (sid pp : Nat) (ud : List Nat)
    (opts : Sctp.SendOptions) (rp : Nat)
    (hrp : st.remotePort = some rp) (hconn : st.connState ≠ .closed) :
    ∃ st2 d,
      Sctp.send st sid pp ud opts = some (st2,
        [⟨st.localPort, rp, st.remoteVerificationTag, .data d⟩]) ∧
      d.userData = ud ∧ d.streamId = sid ∧ d.protocol = pp ∧
      d.tsn = st.localTsn ∧
      d.flags &&& Sctp.SCTP_DATA_FIRST_FRAG ≠ 0 ∧
      d.flags &&& Sctp.SCTP_DATA_LAST_FRAG ≠ 0 ∧
      (d.flags &&& Sctp.SCTP_DATA_UNORDERED ≠ 0 ↔ opts.ordered = false) ∧
      st2.localTsn = (st.localTsn + 1) % 2 ^ 32 ∧
      (st.localTsn = 2 ^ 32 - 1 → st2.localTsn = 0) ∧
      (opts.ordered = false → d.streamSeqNum = 0) ∧
      (opts.ordered = true →
        d.streamSeqNum = (Sctp.lookupSeq st.outboundStreamSeq sid).getD 0 ∧
        st2.outboundStreamSeq =
          Sctp.setSeq st.outboundStreamSeq sid ((d.streamSeqNum + 1) % 2 ^ 16)) := by
  refine ⟨_, _, Sctp.send_shape st sid pp ud opts rp hrp hconn,
    rfl, rfl, rfl, rfl, ?_, ?_, ?_, ?_, ?_, ?_, ?_⟩
  all_goals cases h : opts.ordered <;>
    simp [h, Sctp.tsnPlusOne, Sctp.SCTP_TSN_MODULO, Sctp.uint16Add,
      Sctp.SCTP_DATA_FIRST_FRAG, Sctp.SCTP_DATA_LAST_FRAG, Sctp.SCTP_DATA_UNORDERED] <;>
    first
    | decide
    | omega

/-- Claim C6 witness: an unordered send at local TSN 2³² − 1 wraps to 0. -/
theorem C6_data_chunk_construction_witness :
    ∃ st2 d,
      Sctp.send { exEst with localTsn := 2 ^ 32 - 1 } 3 53 [1, 2]
          { ordered := false } = some (st2,
        [⟨exEst.localPort, 5000, exEst.remoteVerificationTag, .data d⟩]) ∧
      d.userData = [1, 2] ∧ d.streamId = 3 ∧ d.protocol = 53 ∧
      d.tsn = 2 ^ 32 - 1 ∧
      d.flags &&& Sctp.SCTP_DATA_FIRST_FRAG ≠ 0 ∧
      d.flags &&& Sctp.SCTP_DATA_LAST_FRAG ≠ 0 ∧
      (d.flags &&& Sctp.SCTP_DATA_UNORDERED ≠ 0 ↔ false = false) ∧
      st2.localTsn = (2 ^ 32 - 1 + 1) % 2 ^ 32 ∧
      (2 ^ 32 - 1 = 2 ^ 32 - 1 → st2.localTsn = 0) ∧
      (false = false → d.streamSeqNum = 0) ∧
      (false = true →
        d.streamSeqNum = (Sctp.lookupSeq exEst.outboundStreamSeq 3).getD 0 ∧
        st2.outboundStreamSeq =
          Sctp.setSeq exEst.outboundStreamSeq 3 ((d.streamSeqNum + 1) % 2 ^ 16)) :=
  C6_data_chunk_construction { exEst with localTsn := 2 ^ 32 - 1 } 3 53 [1, 2]
    { ordered := false } 5000 (by decide) (by decide)

/-- Claim C10: the receive path performs no duplicate suppression or
reordering before delivery — `receiveDataChunk` always delivers
`(streamId, ppId, payload)` upward, and `handleData` on any DATA chunk
passing the verification-tag check (duplicate TSN or not) produces exactly
that delivery. -/
theorem C10_unconditional_delivery (hmac : List Nat → List Nat) (now : ℚ)
    (st : Sctp.SctpState) (d : Sctp.DataChunkFields) (rp l : Nat)
    (hrp : st.remotePort = some rp) (hconn : st.connState ≠ .closed)
    (hlrt : st.lastReceivedTsn = some l) :
    (Sctp.receiveDataChunk st d).2 = (d.streamId, d.protocol, d.userData) ∧
    ∃ st2 out,
      Sctp.handleData hmac now st st.localVerificationTag (.data d) = some (st2, out) ∧
      out.deliveries = [(d.streamId, d.protocol, d.userData)] := by
  refine ⟨rfl, ?_⟩
  obtain ⟨c, g, h⟩ := Sctp.handleData_data_shape hmac now st d rp l hrp hconn hlrt
  exact ⟨_, _, h, rfl⟩

/-- Claim C5: the signaling state only changes along the §4.1 transition
table — `setLocalDescription` of an offer is allowed exactly from
`stable | have-local-offer` (it never raises an invalid-state error there)
and on success leads to `have-local-offer`; `setLocalDescription` of an
answer is allowed exactly from `have-remote-offer | have-local-pranswer`
and leads to `stable`; `setRemoteDescription` of an offer is allowed
exactly from `stable | have-remote-offer` and leads to
`have-remote-offer`; `setRemoteDescription` of an answer is allowed
exactly from `have-local-offer | have-remote-pranswer` and leads to
`stable`; a call from a disallowed state fails with the invalid-state
error and leaves the peer connection (in particular its signaling state)
unchanged, and any failing call leaves the signaling state unchanged. -/
theorem C5_signaling_transitions (pc : Pc.PCState) (d : Sdp.SessionDescription) :
    (d.type = some .offer →
      ((pc.signalingState = .stable ∨ pc.signalingState = .haveLocalOffer) →
        (Pc.setLocalDescription pc d).2 ≠ some .cannotHandleOffer ∧
        (Pc.setLocalDescription pc d).2 ≠ some .cannotHandleAnswer ∧
        ((Pc.setLocalDescription pc d).2 = none →
          (Pc.setLocalDescription pc d).1.signalingState = .haveLocalOffer)) ∧
      (¬(pc.signalingState = .stable ∨ pc.signalingState = .haveLocalOffer) →
        Pc.setLocalDescription pc d = (pc, some .cannotHandleOffer))) ∧
    (d.type = some .answer →
      ((pc.signalingState = .haveRemoteOffer ∨ pc.signalingState = .haveLocalPranswer) →
        (Pc.setLocalDescription pc d).2 ≠ some .cannotHandleOffer ∧
        (Pc.setLocalDescription pc d).2 ≠ some .cannotHandleAnswer ∧
        ((Pc.setLocalDescription pc d).2 = none →
          (Pc.setLocalDescription pc d).1.signalingState = .stable)) ∧
      (¬(pc.signalingState = .haveRemoteOffer ∨ pc.signalingState = .haveLocalPranswer) →
        Pc.setLocalDescription pc d = (pc, some .cannotHandleAnswer))) ∧
    (d.type = some .offer →
      ((pc.signalingState = .stable ∨ pc.signalingState = .haveRemoteOffer) →
        (Pc.setRemoteDescription pc d).2 ≠ some .cannotHandleOffer ∧
        (Pc.setRemoteDescription pc d).2 ≠ some .cannotHandleAnswer ∧
        ((Pc.setRemoteDescription pc d).2 = none →
          (Pc.setRemoteDescription pc d).1.signalingState = .haveRemoteOffer)) ∧
      (¬(pc.signalingState = .stable ∨ pc.signalingState = .haveRemoteOffer) →
        Pc.setRemoteDescription pc d = (pc, some .cannotHandleOffer))) ∧
    (d.type = some .answer →
      ((pc.signalingState = .haveLocalOffer ∨ pc.signalingState = .haveRemotePranswer) →
        (Pc.setRemoteDescription pc d).2 ≠ some .cannotHandleOffer ∧
        (Pc.setRemoteDescription pc d).2 ≠ some .cannotHandleAnswer ∧
        ((Pc.setRemoteDescription pc d).2 = none →
          (Pc.setRemoteDescription pc d).1.signalingState = .stable)) ∧
      (¬(pc.signalingState = .haveLocalOffer ∨ pc.signalingState = .haveRemotePranswer) →
        Pc.setRemoteDescription pc d = (pc, some .cannotHandleAnswer))) ∧
    ((Pc.setLocalDescription pc d).2 ≠ none →
      (Pc.setLocalDescription pc d).1.signalingState = pc.signalingState) ∧
    ((Pc.setRemoteDescription pc d).2 ≠ none →
      (Pc.setRemoteDescription pc d).1.signalingState = pc.signalingState) := by
  have herrL := Pc.setLocalDescription_err pc d
  refine ⟨?_, ?_, ?_, ?_, ?_, ?_⟩
  · intro ht
    refine ⟨fun hallow => ?_, fun hdis =>
      Pc.setLocalDescription_validate_fail pc d _ (Pc.validate_local_offer_fail pc d ht hdis)⟩
    have hv := Pc.validate_local_offer_allowed pc d ht hallow
    refine ⟨?_, ?_, fun hnone => ?_⟩
    · rcases hv with hv | hv <;> simp [herrL, hv]
    · rcases hv with hv | hv <;> simp [herrL, hv]
    · have hvn : Pc.validateDescription pc d true = none := by rw [← herrL]; exact hnone
      rw [Pc.setLocalDescription_ok pc d hvn]
      simp [Pc.setLocal_signalingState, ht, Pc.setSignalingState]
  · intro ht
    refine ⟨fun hallow => ?_, fun hdis =>
      Pc.setLocalDescription_validate_fail pc d _ (Pc.validate_local_answer_fail pc d ht hdis)⟩
    have hv := Pc.validate_local_answer_allowed pc d ht hallow
    refine ⟨?_, ?_, fun hnone => ?_⟩
    · rcases hv with hv | hv | hv | hv <;> simp [herrL, hv]
    · rcases hv with hv | hv | hv | hv <;> simp [herrL, hv]
    · have hvn : Pc.validateDescription pc d true = none := by rw [← herrL]; exact hnone
      rw [Pc.setLocalDescription_ok pc d hvn]
      simp [Pc.setLocal_signalingState, ht, Pc.setSignalingState]
  · intro ht
    refine ⟨fun hallow => ?_, fun hdis =>
      Pc.setRemoteDescription_validate_fail pc d _ (Pc.validate_remote_offer_fail pc d ht hdis)⟩
    have hv := Pc.validate_remote_offer_allowed pc d ht hallow
    have hmem := Pc.setRemoteDescription_err_mem pc d
    refine ⟨?_, ?_, fun hnone => ?_⟩
    · rcases hmem with hm | hm | hm | hm <;> rcases hv with hv | hv <;> simp_all
    · rcases hmem with hm | hm | hm | hm <;> rcases hv with hv | hv <;> simp_all
    · rcases hv with hv | hv
      · exact Pc.setRemoteDescription_sig_ok pc d hv hnone .offer ht
      · rw [Pc.setRemoteDescription_validate_fail pc d _ hv] at hnone
        simp at hnone
  · intro ht
    refine ⟨fun hallow => ?_, fun hdis =>
      Pc.setRemoteDescription_validate_fail pc d _ (Pc.validate_remote_answer_fail pc d ht hdis)⟩
    have hv := Pc.validate_remote_answer_allowed pc d ht hallow
    have hmem := Pc.setRemoteDescription_err_mem pc d
    refine ⟨?_, ?_, fun hnone => ?_⟩
    · rcases hmem with hm | hm | hm | hm <;> rcases hv with hv | hv | hv | hv <;> simp_all
    · rcases hmem with hm | hm | hm | hm <;> rcases hv with hv | hv | hv | hv <;> simp_all
    · rcases hv with hv | hv | hv | hv
      · exact Pc.setRemoteDescription_sig_ok pc d hv hnone .answer ht
      all_goals
        rw [Pc.setRemoteDescription_validate_fail pc d _ hv] at hnone
        simp at hnone
  · intro hfail
    cases hv : Pc.validateDescription pc d true with
    | some e => rw [Pc.setLocalDescription_validate_fail pc d e hv]
    | none => rw [herrL] at hfail; exact absurd hv hfail
  · exact Pc.setRemoteDescription_sig_fail pc d

/-- Claim C5 witness: from `stable`, a local offer succeeds and moves the
signaling state to `have-local-offer`; from `have-remote-offer`, a local
offer fails with the invalid-state error and changes nothing. -/
theorem C5_signaling_transitions_witness :
    (Pc.setLocalDescription exPcStable exOfferDesc).1.signalingState = .haveLocalOffer ∧
    Pc.setLocalDescription { exPcStable with signalingState := .haveRemoteOffer } exOfferDesc =
      ({ exPcStable with signalingState := .haveRemoteOffer }, some .cannotHandleOffer) := by
  constructor
  · exact (((C5_signaling_transitions exPcStable exOfferDesc).1 rfl).1
      (Or.inl rfl)).2.2 (by decide)
  · exact ((C5_signaling_transitions { exPcStable with signalingState := .haveRemoteOffer }
      exOfferDesc).1 rfl).2 (by decide)

/-- Claim C7: when a peer connection accepts an answer (via
`setLocalDescription` or `setRemoteDescription`), the ordered `(kind,
index)` pair sequence of the answer's media sections must equal that of
the stored counterpart offer: when it does, validation passes; when it
does not, the call fails with the invalid-sdp media-mismatch error and
the peer connection — in particular every stored description — is left
unchanged. -/
theorem C7_answer_media_match (pc : Pc.PCState) (d off : Sdp.SessionDescription)
    (ht : d.type = some .answer)
    (hcreds : d.media.any (fun m => !Pc.mediaCredsOk m) = false) :
    ((pc.signalingState = .haveRemoteOffer ∨ pc.signalingState = .haveLocalPranswer) →
      Pc.remoteDesc pc = some off →
      (Pc.mediaKindIndexPairs d = Pc.mediaKindIndexPairs off →
        Pc.validateDescription pc d true = none) ∧
      (Pc.mediaKindIndexPairs d ≠ Pc.mediaKindIndexPairs off →
        Pc.setLocalDescription pc d = (pc, some .mediaMismatch))) ∧
    ((pc.signalingState = .haveLocalOffer ∨ pc.signalingState = .haveRemotePranswer) →
      Pc.localDesc pc = some off →
      (Pc.mediaKindIndexPairs d = Pc.mediaKindIndexPairs off →
        Pc.validateDescription pc d false = none) ∧
      (Pc.mediaKindIndexPairs d ≠ Pc.mediaKindIndexPairs off →
        Pc.setRemoteDescription pc d = (pc, some .mediaMismatch))) := by
  constructor
  · intro hallow hoff
    refine ⟨fun heq => ?_, fun hne => ?_⟩
    · simp only [Pc.validateDescription, ht]
      rw [if_pos hallow]
      simp [hcreds, hoff, heq]
    · have hval : Pc.validateDescription pc d true = some .mediaMismatch := by
        simp only [Pc.validateDescription, ht]
        rw [if_pos hallow]
        simp [hcreds, hoff, hne]
      exact Pc.setLocalDescription_validate_fail pc d _ hval
  · intro hallow hoff
    refine ⟨fun heq => ?_, fun hne => ?_⟩
    · simp only [Pc.validateDescription, ht]
      rw [if_pos hallow]
      simp [hcreds, hoff, heq]
    · have hval : Pc.validateDescription pc d false = some .mediaMismatch := by
        simp only [Pc.validateDescription, ht]
        rw [if_pos hallow]
        simp [hcreds, hoff, hne]
      exact Pc.setRemoteDescription_validate_fail pc d _ hval

/-- Claim C7 witness: with a pending remote offer containing one
`application` media section, an answer with a matching media list
validates cleanly, while an answer whose single media section is `audio`
fails with the media-mismatch error and leaves the connection unchanged. -/
theorem C7_answer_media_match_witness :
    Pc.validateDescription exPcRemoteOffer exAnswerDesc true = none ∧
    Pc.setLocalDescription exPcRemoteOffer exBadAnswerDesc =
      (exPcRemoteOffer, some .mediaMismatch) := by
  constructor
  · exact ((C7_answer_media_match exPcRemoteOffer exAnswerDesc exOfferDesc rfl (by decide)).1
      (Or.inl rfl) rfl).1 (by decide)
  · exact ((C7_answer_media_match exPcRemoteOffer exBadAnswerDesc exOfferDesc rfl (by decide)).1
      (Or.inl rfl) rfl).2 (by decide)

/-- Claim C9: `RTCPeerConnection.close` is idempotent — for every N ≥ 1,
calling `close` N times yields exactly the same peer-connection state
(signaling state, connection state, SCTP transport and its timers, stored
descriptions) as calling it once. -/
theorem C9_close_idempotent (pc : Pc.PCState) (n : Nat) (h : 1 ≤ n) :
    Pc.closeSt^[n] pc = Pc.closeSt pc := by
  have key : ∀ q, Pc.closeSt (Pc.closeSt q) = Pc.closeSt q := fun q =>
    Pc.closeSt_fix _ (Pc.closeSt_isClosed q)
  have aux : ∀ (m : Nat) (q : Pc.PCState), Pc.closeSt^[m] (Pc.closeSt q) = Pc.closeSt q := by
    intro m
    induction m with
    | zero => intro q; rfl
    | succ k ih => intro q; rw [Function.iterate_succ_apply, key, ih]
  obtain ⟨m, rfl⟩ : ∃ m, n = m + 1 := ⟨n - 1, by omega⟩
  rw [Function.iterate_succ_apply, aux]

/-- Claim C9 witness: closing a connected peer connection three times
yields the same state as closing it once. -/
theorem C9_close_idempotent_witness :
    Pc.closeSt^[3] exPcConnected = Pc.closeSt exPcConnected :=
  C9_close_idempotent exPcConnected 3 (by decide)

/-- Claim C10 witness: a DATA chunk whose TSN 1 is a duplicate (it equals
the current `last-received-tsn`, so `markReceived` records it in
`sackDuplicates`) is still delivered upward. -/
theorem C10_unconditional_delivery_witness :
    ((Sctp.receiveDataChunk exEst ⟨3, 1, 7, 0, 53, [9]⟩).2 = (7, 53, [9]) ∧
      ∃ st2 out,
        Sctp.handleData exHmac 0 exEst exEst.localVerificationTag
          (.data ⟨3, 1, 7, 0, 53, [9]⟩) = some (st2, out) ∧
        out.deliveries = [(7, 53, [9])]) ∧
    Sctp.uint32Gte exEst.lastReceivedTsn (some 1) = true :=
  ⟨C10_unconditional_delivery exHmac 0 exEst ⟨3, 1, 7, 0, 53, [9]⟩ 5000 1
      (by decide) (by decide) (by decide),
   by decide⟩

/-- C8: every session description emitted by the implementation — the
`string` of a built offer (one application media section, parameterized by
the origin line, mid, ICE credentials, fingerprints, DTLS role, gathered
candidates, SCTP port and bundle policy) or of a built answer — parses
back with `SessionDescription.parse` to a description whose re-serialized
`string` is byte-identical to the original (the parsed record differs from
the built one only in the `type` field, which the serializer ignores). -/
theorem C8_parse_serialize_roundtrip (p : Sdp.OfferParams) (o : Str)
    (hp : Sdp.OfferParamsOk p) (ho : Sdp.lineOk o) :
    (∃ d, Sdp.parse (Sdp.sdpStr (Sdp.buildOffer p)) = some d ∧
        Sdp.sdpStr d = Sdp.sdpStr (Sdp.buildOffer p)) ∧
    (∃ d, Sdp.parse (Sdp.sdpStr (Sdp.buildAnswer o)) = some d ∧
        Sdp.sdpStr d = Sdp.sdpStr (Sdp.buildAnswer o)) :=
  ⟨⟨_, parse_buildOffer p hp, sdpStr_set_type _ _⟩,
   ⟨_, parse_buildAnswer o ho, sdpStr_set_type _ _⟩⟩

/-- Claim C8 witness: a concrete emitted offer (with one gathered host
candidate, one fingerprint and a BUNDLE group) and a concrete answer
origin satisfy the well-formedness hypotheses by computation. -/
theorem C8_parse_serialize_roundtrip_witness :
    Sdp.OfferParamsOk exOfferParams ∧ Sdp.lineOk (str "- 77 0 IN IP4 0.0.0.0") ∧
    ((∃ d, Sdp.parse (Sdp.sdpStr (Sdp.buildOffer exOfferParams)) = some d ∧
        Sdp.sdpStr d = Sdp.sdpStr (Sdp.buildOffer exOfferParams)) ∧
     (∃ d, Sdp.parse (Sdp.sdpStr (Sdp.buildAnswer (str "- 77 0 IN IP4 0.0.0.0"))) = some d ∧
        Sdp.sdpStr d = Sdp.sdpStr (Sdp.buildAnswer (str "- 77 0 IN IP4 0.0.0.0")))) :=
  ⟨by decide, by decide,
   C8_parse_serialize_roundtrip exOfferParams (str "- 77 0 IN IP4 0.0.0.0") (by decide) (by decide)⟩

end Fudano
